import Mathlib

/-!
Verification of the brex-cli command dispatch / gateway-client / pagination /
dual-mode rendering layer.

The TypeScript sources under `src/` are embedded shallowly: each command
module becomes a Lean namespace, fallible code returns `Except`, and the
side effects of one invocation (lines printed, JSON values printed, tables
printed, HTTP requests issued) are reified as explicit values.  Helpers that
live in the repository's `output.ts` / `config.ts` (not part of the provided
sources) are modelled from the specification and marked as such in their doc
comments.
-/

namespace Brex

/-- Opaque JSON-like values, used for fields the source types as `unknown`. -/
inductive Js where
  | null
  | bool (b : Bool)
  | num (n : Int)
  | str (s : String)
  | arr (xs : List Js)
  | obj (fields : List (String × Js))

/-- Output format, from `types.ts` (`"table" | "json"`). -/
inductive OutputFormat where
  | table
  | json
deriving DecidableEq, Repr

/-- One column descriptor, as passed to `printTable` (`{key, header, width}`). -/
structure ColSpec where
  key : String
  header : String
  width : Nat
deriving DecidableEq, Repr

/-- The object literal `{items, nextCursor}` that every single-kind list
command passes to `printJson`; `nextCursor` is `none` exactly when the
rendered field is JSON `null` (the source writes `next_cursor ?? null`). -/
structure Envelope (α : Type) where
  items : List α
  nextCursor : Option String
deriving DecidableEq, Repr

/-- One observable output event of an invocation: a JSON value printed by
`printJson`, a line printed by `console.log`, or a table printed by
`printTable`.  `printJson` is modelled from the spec: it serializes the given
structure to indented JSON and writes it verbatim, so the printed text
deserializes back to exactly the structure carried by the `json` event. -/
inductive OutEv (π ρ : Type) where
  | json (v : π)
  | line (s : String)
  | table (rows : List ρ) (cols : List ColSpec)
deriving DecidableEq, Repr

/-- An HTTP request issued through the gateway client. -/
structure HttpReq where
  method : String
  path : String
deriving DecidableEq, Repr

/-- GET request to a path (the default method of `client.fetch`). -/
def getReq (path : String) : HttpReq := { method := "GET", path := path }

/-- Nullish coalescing `a ?? b` on optional values. -/
def nc {α : Type} (a b : Option α) : Option α :=
  match a with
  | some x => some x
  | none => b

/-- `a ?? b ?? c`. -/
def nc3 {α : Type} (a b c : Option α) : Option α := nc a (nc b c)

/-- JavaScript truthiness filter for an optional string: `undefined` and the
empty string are falsy. -/
def truthyStr (o : Option String) : Option String :=
  match o with
  | some s => if s = "" then none else some s
  | none => none

/-- JavaScript truthiness filter for an optional integer: `undefined` and `0`
are falsy. -/
def truthyInt (o : Option Int) : Option Int :=
  match o with
  | some n => if n = 0 then none else some n
  | none => none

/-- `arg.startsWith("-")`: the token begins with a dash. -/
def startsWithDash (s : String) : Bool :=
  match s.data with
  | c :: _ => c = '-'
  | [] => false

/-- Query parameter contributed by `if (options.x) params.set(key, options.x)`. -/
def optParamStr (key : String) (v : Option String) : List (String × String) :=
  match truthyStr v with
  | some s => [(key, s)]
  | none => []

/-- Query parameter contributed by `if (options.n) params.set(key, String(options.n))`. -/
def optParamInt (key : String) (v : Option Int) : List (String × String) :=
  match truthyInt v with
  | some n => [(key, toString n)]
  | none => []

/-- Whitespace characters skipped by JavaScript `parseInt` (ECMAScript
WhiteSpace and LineTerminator code points). -/
def isJsWhitespace (c : Char) : Bool :=
  c.toNat ∈ [0x9, 0xA, 0xB, 0xC, 0xD, 0x20, 0xA0, 0x1680,
    0x2000, 0x2001, 0x2002, 0x2003, 0x2004, 0x2005, 0x2006, 0x2007,
    0x2008, 0x2009, 0x200A, 0x2028, 0x2029, 0x202F, 0x205F, 0x3000, 0xFEFF]

/-- Numeric value of a leading run of ASCII digits. -/
def digitsToNat (ds : List Char) : Nat :=
  ds.foldl (fun a c => 10 * a + (c.toNat - 48)) 0

/-- The leading ASCII-digit run of a character list, or `none` if there is
no leading digit. -/
def leadingDigits (cs : List Char) : Option Nat :=
  let ds := cs.takeWhile Char.isDigit
  if ds.isEmpty then none else some (digitsToNat ds)

/-- JavaScript `parseInt(s, 10)`: skip leading whitespace, read an optional
sign and then a maximal run of decimal digits; `none` models `NaN`. -/
def parseIntJS (s : String) : Option Int :=
  let cs := s.data.dropWhile isJsWhitespace
  match cs with
  | c :: rest =>
    if c = '-' then (leadingDigits rest).map (fun n => -(n : Int))
    else if c = '+' then (leadingDigits rest).map (fun n => (n : Int))
    else (leadingDigits cs).map (fun n => (n : Int))
  | [] => none

/-- ASCII uppercase of a string, agreeing with
`String.prototype.toUpperCase` exactly on ASCII input; JavaScript's Unicode
mappings (such as U+017F or U+0131 to `S`/`I`) are not modelled, so theorems
about enumeration flags whose values pass through this function carry an
explicit ASCII hypothesis. -/
def toUpperJS (s : String) : String := ⟨s.data.map Char.toUpper⟩

/-! ### URL component encoding

`encodeURIComponent` and the `application/x-www-form-urlencoded`
serialization used by `URLSearchParams.toString()`, modelled at the
character-list level. -/

/-- Characters kept verbatim by `encodeURIComponent`:
`A-Z a-z 0-9 - _ . ! ~ * ' ( )`. -/
def isUriComponentSafe (c : Char) : Bool :=
  let n := c.toNat
  (48 ≤ n ∧ n ≤ 57) ∨ (65 ≤ n ∧ n ≤ 90) ∨ (97 ≤ n ∧ n ≤ 122) ∨
    n ∈ [45, 95, 46, 33, 126, 42, 39, 40, 41]

/-- Characters kept verbatim by the form-urlencoded serializer:
`A-Z a-z 0-9 * - . _` (space becomes `+`). -/
def isFormSafe (c : Char) : Bool :=
  let n := c.toNat
  (48 ≤ n ∧ n ≤ 57) ∨ (65 ≤ n ∧ n ≤ 90) ∨ (97 ≤ n ∧ n ≤ 122) ∨
    n ∈ [42, 45, 46, 95]

/-- Uppercase hexadecimal digit for `d < 16`. -/
def hexDigitChar (d : Nat) : Char :=
  if d < 10 then Char.ofNat (48 + d) else Char.ofNat (55 + d)

/-- UTF-8 bytes of a character. -/
def utf8Bytes (c : Char) : List Nat :=
  if c.toNat < 0x80 then [c.toNat]
  else if c.toNat < 0x800 then [0xC0 + c.toNat / 64, 0x80 + c.toNat % 64]
  else if c.toNat < 0x10000 then
    [0xE0 + c.toNat / 4096, 0x80 + c.toNat / 64 % 64, 0x80 + c.toNat % 64]
  else
    [0xF0 + c.toNat / 262144, 0x80 + c.toNat / 4096 % 64, 0x80 + c.toNat / 64 % 64,
     0x80 + c.toNat % 64]

/-- Percent-escape of one byte, uppercase hex as produced by JavaScript. -/
def percentEncodeByte (b : Nat) : List Char :=
  ['%', hexDigitChar (b / 16), hexDigitChar (b % 16)]

/-- Encoding of one character: space to `+` in form mode, safe characters
kept, everything else percent-escaped bytewise. -/
def encChar (safe : Char → Bool) (spacePlus : Bool) (c : Char) : List Char :=
  if spacePlus ∧ c = ' ' then ['+']
  else if safe c then [c]
  else (utf8Bytes c).flatMap percentEncodeByte

/-- Encoding of a character list. -/
def encodeL (safe : Char → Bool) (spacePlus : Bool) (s : List Char) : List Char :=
  s.flatMap (encChar safe spacePlus)

/-- `encodeURIComponent`. -/
def encodeURIComponent (s : String) : String :=
  ⟨encodeL isUriComponentSafe false s.data⟩

/-- Form-urlencoded serialization of one string, as applied by
`URLSearchParams.toString()` to each key and value. -/
def formEncode (s : String) : String :=
  ⟨encodeL isFormSafe true s.data⟩

/-- Join strings with `&` separators. -/
def joinAmp : List String → String
  | [] => ""
  | [x] => x
  | x :: xs => x ++ "&" ++ joinAmp xs

/-- `URLSearchParams.toString()`: `k=v` pairs in insertion order joined by
`&`, keys and values form-urlencoded. -/
def urlSearchParamsToString (ps : List (String × String)) : String :=
  joinAmp (ps.map fun p => formEncode p.1 ++ "=" ++ formEncode p.2)

/-! ### Query-parameter observation

The decoder below is not part of the source; it is the standard reading of a
URL's query string, used to state what value a request carries for a given
query parameter. -/

/-- Numeric value of one hexadecimal digit character. -/
def hexVal (c : Char) : Option Nat :=
  let n := c.toNat
  if 48 ≤ n ∧ n ≤ 57 then some (n - 48)
  else if 65 ≤ n ∧ n ≤ 70 then some (n - 55)
  else if 97 ≤ n ∧ n ≤ 102 then some (n - 87)
  else none

/-- Percent-decoding of a query component; in form mode `+` decodes to a
space.  Bytes are mapped directly to code points, which is exact on the
ASCII range. -/
def percentDecodeL (spacePlus : Bool) : List Char → Option (List Char)
  | [] => some []
  | c :: rest =>
    if c = '%' then
      match rest with
      | h :: l :: rest2 =>
        match hexVal h, hexVal l with
        | some a, some b =>
          (percentDecodeL spacePlus rest2).map (fun r => Char.ofNat (16 * a + b) :: r)
        | _, _ => none
      | _ => none
    else
      (percentDecodeL spacePlus rest).map
        (fun r => (if spacePlus ∧ c = '+' then ' ' else c) :: r)

/-- Everything after the first `?` of a URL. -/
def queryStringOf (url : List Char) : List Char :=
  (url.dropWhile (fun c => c ≠ '?')).drop 1

/-- Split on a separator character. -/
def splitOnCharL (sep : Char) : List Char → List (List Char)
  | [] => [[]]
  | c :: rest =>
    match splitOnCharL sep rest with
    | [] => [[c]]
    | g :: gs => if c = sep then [] :: g :: gs else (c :: g) :: gs

/-- Split a `k=v` piece at its first `=`. -/
def kvOf (piece : List Char) : List Char × List Char :=
  (piece.takeWhile (fun c => c ≠ '='), (piece.dropWhile (fun c => c ≠ '=')).drop 1)

/-- The decoded value of query parameter `key` in `url`, if present. -/
def queryParamValueL (spacePlus : Bool) (url : List Char) (key : List Char) :
    Option (List Char) :=
  match ((splitOnCharL '&' (queryStringOf url)).map kvOf).find? (fun kv => kv.1 = key) with
  | some kv => percentDecodeL spacePlus kv.2
  | none => none

/-! ### Renderer helpers

These live in the repository's `output.ts`, which is not among the provided
sources; they are modelled from the specification.  No claim depends on
their exact text. -/

/-- Modelled from the spec: the `--json` flag is recognized globally before
dispatch and switches output from table to JSON; its absence implies table
mode (`output.ts` is not in the provided sources). -/
def parseOutputFlag (args : List String) : OutputFormat × List String :=
  (if args.contains "--json" then .json else .table,
   args.filter (fun a => a ≠ "--json"))

/-- Modelled from the spec: `truncate` replaces the tail with an ellipsis
marker when the source string exceeds the width (`output.ts` is not in the
provided sources). -/
def truncate (s : String) (width : Nat) : String :=
  if s.length > width then (s.take (width - 1)).push '…' else s

/-- Amount argument of `formatAmount`: callers pass a decimal string, a
number, or an undefined value depending on the resource. -/
inductive JsNum where
  | str (s : String)
  | int (n : Int)
  | undef
deriving DecidableEq, Repr

/-- Modelled from the spec: money is rendered as a fixed display combining a
currency code and the numeric amount (`output.ts` is not in the provided
sources; no claim depends on the exact text). -/
def formatAmount (amount : JsNum) (currency : Option String) : String :=
  let a := match amount with
    | .str s => s
    | .int n => toString n
    | .undef => "-"
  (currency.getD "") ++ " " ++ a

/-- Modelled from the spec: date rendering helper from `output.ts` (not in
the provided sources; no claim depends on the exact text). -/
def formatDate (s : Option String) : String := s.getD "-"

/-- Modelled from the spec: date-time rendering helper from `output.ts` (not
in the provided sources; no claim depends on the exact text). -/
def formatDateTime (s : Option String) : String := s.getD "-"

end Brex

namespace Brex.Client

/-- Error payload of an API failure (`ApiError` in `client.ts`); the parsed
body of a failed response may lack any of these fields, and `details` is an
arbitrary structure. -/
structure ApiErrorBody where
  error : Option String
  message : Option String
  details : Option Js

/-- `BrexApiError` from `client.ts`: carries the HTTP status, the (parsed or
synthesized) body, and the `Error` message computed by its constructor as
`body.message ?? body.error ?? "HTTP <status>"`. -/
structure BrexApiError where
  status : Nat
  body : ApiErrorBody
  message : String

/-- The `BrexApiError` constructor. -/
def mkBrexApiError (status : Nat) (body : ApiErrorBody) : BrexApiError :=
  { status := status, body := body,
    message := (nc body.message (nc body.error (some ("HTTP " ++ toString status)))).getD "" }

/-- Outcome of `await response.json()` on a failed response: the call may
throw, produce a non-object value, or produce an object (read as `ApiError`). -/
inductive ErrorBodyParse where
  | unparseable
  | nonObjectJson
  | objectJson (b : ApiErrorBody)

/-- An HTTP response as observed by `client.fetch`: status, status text, the
outcome of parsing the body as JSON, and the body text. -/
structure HttpResponse where
  status : Nat
  statusText : String
  errorBody : ErrorBodyParse
  text : String

/-- `Response.ok`: status in the 200–299 range. -/
def HttpResponse.ok (r : HttpResponse) : Bool :=
  200 ≤ r.status ∧ r.status ≤ 299

/-- Successful decode outcome of `client.fetch`: 204 or an empty body give
an explicit no-content value, otherwise the body text is handed to
`JSON.parse` (external). -/
inductive FetchSuccess where
  | noContent
  | bodyText (raw : String)

/-- Response handling of `client.fetch` (`client.ts`): a non-2xx status
parses the body as an `ApiError`, falling back to a synthetic body built
from the status code and status text, and throws `BrexApiError`; a 2xx
status decodes 204/empty bodies to no-content and otherwise yields the body
text for JSON decoding. -/
def handleResponse (r : HttpResponse) : Except BrexApiError FetchSuccess :=
  if r.ok then
    if r.status = 204 then .ok .noContent
    else if r.text.trim = "" then .ok .noContent
    else .ok (.bodyText r.text)
  else
    let body : ApiErrorBody :=
      match r.errorBody with
      | .objectJson b => b
      | _ => { error := some ("HTTP " ++ toString r.status), message := some r.statusText,
               details := none }
    .error (mkBrexApiError r.status body)

end Brex.Client

namespace Brex

/-- An error escaping a command invocation: a `BrexApiError` thrown by the
client, or a plain `Error` with a message. -/
inductive CliErr where
  | api (e : Client.BrexApiError)
  | plain (msg : String)

/-- Result of one `client.fetch` call, as seen by a command handler. -/
def FetchR (α : Type) : Type := Except CliErr α

end Brex

namespace Brex.Events

/-- `ApiEvent` from the events command module. -/
structure ApiEvent where
  id : String
  event_type : Option String
  occurred_at : Option String
  webhook_id : Option String
  payload : Option Js

/-- `ListEventsResponse`. -/
structure ListEventsResponse where
  items : Option (List ApiEvent)
  events : Option (List ApiEvent)
  next_cursor : Option String

/-- `ListOptions` of the events command. -/
structure ListOptions where
  eventType : Option String := none
  afterDate : Option String := none
  beforeDate : Option String := none
  cursor : Option String := none
  limit : Option Int := none
deriving DecidableEq, Repr

/-- The `parseListOptions` scan loop of the events command: walks the
arguments left to right, each recognized flag consuming the following token
as its value; a thrown `Error` is an `Except.error`. -/
def parseListOptionsLoop : List String → ListOptions → Except String ListOptions
  | [], o => .ok o
  | arg :: rest, o =>
    if arg = "" then parseListOptionsLoop rest o
    else if arg = "--event-type" then
      match rest with
      | [] => .error "--event-type requires a value"
      | v :: rest2 =>
        if v = "" then .error "--event-type requires a value"
        else parseListOptionsLoop rest2 { o with eventType := some v }
    else if arg = "--after-date" then
      match rest with
      | [] => .error "--after-date requires a value"
      | v :: rest2 =>
        if v = "" then .error "--after-date requires a value"
        else parseListOptionsLoop rest2 { o with afterDate := some v }
    else if arg = "--before-date" then
      match rest with
      | [] => .error "--before-date requires a value"
      | v :: rest2 =>
        if v = "" then .error "--before-date requires a value"
        else parseListOptionsLoop rest2 { o with beforeDate := some v }
    else if arg = "--cursor" then
      match rest with
      | [] => .error "--cursor requires a value"
      | v :: rest2 =>
        if v = "" then .error "--cursor requires a value"
        else parseListOptionsLoop rest2 { o with cursor := some v }
    else if arg = "--limit" then
      match rest with
      | [] => .error "--limit requires a value"
      | v :: rest2 =>
        if v = "" then .error "--limit requires a value"
        else
          match parseIntJS v with
          | none => .error "--limit must be a positive integer"
          | some n =>
            if n ≤ 0 then .error "--limit must be a positive integer"
            else parseListOptionsLoop rest2 { o with limit := some n }
    else if startsWithDash arg then .error (s!"Unknown option: {arg}")
    else parseListOptionsLoop rest o

/-- `parseListOptions` of the events command. -/
def parseListOptions (args : List String) : Except String ListOptions :=
  parseListOptionsLoop args {}

/-- The request path built by `listEvents` from its options via
`URLSearchParams`. -/
def listEventsPath (o : ListOptions) : String :=
  let params :=
    optParamStr "event_type" o.eventType ++ optParamStr "after_date" o.afterDate ++
    optParamStr "before_date" o.beforeDate ++ optParamStr "cursor" o.cursor ++
    optParamInt "limit" o.limit
  let query := urlSearchParamsToString params
  if query = "" then "/v1/events" else "/v1/events?" ++ query

/-- A rendered table row of the events listing. -/
structure EventRow where
  id : String
  type : String
  occurredAt : String
  webhookId : String
deriving DecidableEq, Repr

/-- Column specs passed to `printTable` by `listEvents`. -/
def eventCols : List ColSpec :=
  [{ key := "id", header := "Event ID", width := 36 },
   { key := "type", header := "Type", width := 30 },
   { key := "occurredAt", header := "Occurred", width := 20 },
   { key := "webhookId", header := "Webhook ID", width := 36 }]

/-- `listEvents`: builds the path, performs the fetch, and renders either the
JSON envelope or the table (or the empty-list message). -/
def listEvents (fetchList : String → FetchR ListEventsResponse)
    (options : ListOptions) (format : OutputFormat) :
    Except CliErr (List (OutEv (Envelope ApiEvent) EventRow)) × List HttpReq :=
  let path := listEventsPath options
  match fetchList path with
  | .error e => (.error e, [getReq path])
  | .ok response =>
    let events := (nc response.items response.events).getD []
    if format = .json then
      (.ok [.json ⟨events, response.next_cursor⟩], [getReq path])
    else if events.length = 0 then
      (.ok [.line "No events found."], [getReq path])
    else
      let tableEv : OutEv (Envelope ApiEvent) EventRow :=
        .table (events.map fun event =>
          { id := event.id,
            type := truncate (event.event_type.getD "-") 30,
            occurredAt := formatDateTime event.occurred_at,
            webhookId := truncate (event.webhook_id.getD "-") 36 }) eventCols
      let tail := match truthyStr response.next_cursor with
        | some cur => [OutEv.line (s!"\nNext cursor: {cur}")]
        | none => []
      (.ok ([tableEv] ++ tail), [getReq path])

end Brex.Events

namespace Brex.Webhooks

/-- `Webhook` from the webhooks command module. -/
structure Webhook where
  id : String
  url : Option String
  status : Option String
  event_types : Option (List String)
  created_at : Option String
deriving DecidableEq, Repr

/-- `ListWebhooksResponse`. -/
structure ListWebhooksResponse where
  items : Option (List Webhook)
  webhooks : Option (List Webhook)
  next_cursor : Option String
deriving DecidableEq, Repr

/-- `GetWebhookResponse = { webhook?, item? } & Webhook`: the optional
wrapper fields plus the webhook fields carried inline. -/
structure GetWebhookResponse extends Webhook where
  webhook : Option Webhook
  item : Option Webhook
deriving DecidableEq, Repr

/-- `ListOptions` of the webhooks command. -/
structure ListOptions where
  cursor : Option String := none
  limit : Option Int := none
deriving DecidableEq, Repr

/-- `CreateOptions` of the webhooks command. -/
structure CreateOptions where
  url : String
  status : Option String := none
  events : Option (List String) := none
deriving DecidableEq, Repr

/-- `UpdateOptions` of the webhooks command. -/
structure UpdateOptions where
  url : Option String := none
  status : Option String := none
  events : Option (List String) := none
deriving DecidableEq, Repr

/-- The `parseListOptions` scan loop of the webhooks command. -/
def parseListOptionsLoop : List String → ListOptions → Except String ListOptions
  | [], o => .ok o
  | arg :: rest, o =>
    if arg = "" then parseListOptionsLoop rest o
    else if arg = "--cursor" then
      match rest with
      | [] => .error "--cursor requires a value"
      | v :: rest2 =>
        if v = "" then .error "--cursor requires a value"
        else parseListOptionsLoop rest2 { o with cursor := some v }
    else if arg = "--limit" then
      match rest with
      | [] => .error "--limit requires a value"
      | v :: rest2 =>
        if v = "" then .error "--limit requires a value"
        else
          match parseIntJS v with
          | none => .error "--limit must be a positive integer"
          | some n =>
            if n ≤ 0 then .error "--limit must be a positive integer"
            else parseListOptionsLoop rest2 { o with limit := some n }
    else if startsWithDash arg then .error (s!"Unknown option: {arg}")
    else parseListOptionsLoop rest o

/-- `parseListOptions` of the webhooks command. -/
def parseListOptions (args : List String) : Except String ListOptions :=
  parseListOptionsLoop args {}

/-- The `parseCreateOptions` scan loop (accumulating url/status/events). -/
def parseCreateOptionsLoop :
    List String → Option String → Option String → Option (List String) →
    Except String (Option String × Option String × Option (List String))
  | [], url, status, events => .ok (url, status, events)
  | arg :: rest, url, status, events =>
    if arg = "" then parseCreateOptionsLoop rest url status events
    else if arg = "--url" then
      match rest with
      | [] => .error "--url requires a value"
      | v :: rest2 =>
        if v = "" then .error "--url requires a value"
        else parseCreateOptionsLoop rest2 (some v) status events
    else if arg = "--status" then
      match rest with
      | [] => .error "--status requires a value"
      | v :: rest2 =>
        if v = "" then .error "--status requires a value"
        else parseCreateOptionsLoop rest2 url (some v) events
    else if arg = "--events" then
      match rest with
      | [] => .error "--events requires a value"
      | v :: rest2 =>
        if v = "" then .error "--events requires a value"
        else
          parseCreateOptionsLoop rest2 url status
            (some (((v.splitOn ",").map String.trim).filter (fun s => s ≠ "")))
    else if startsWithDash arg then .error (s!"Unknown option: {arg}")
    else parseCreateOptionsLoop rest url status events

/-- `parseCreateOptions` of the webhooks command. -/
def parseCreateOptions (args : List String) : Except String CreateOptions :=
  match parseCreateOptionsLoop args none none none with
  | .error e => .error e
  | .ok (url, status, events) =>
    match url with
    | none => .error "Missing required --url"
    | some u => .ok { url := u, status := status, events := events }

/-- The `parseUpdateOptions` scan loop of the webhooks command. -/
def parseUpdateOptionsLoop : List String → UpdateOptions → Except String UpdateOptions
  | [], o => .ok o
  | arg :: rest, o =>
    if arg = "" then parseUpdateOptionsLoop rest o
    else if arg = "--url" then
      match rest with
      | [] => .error "--url requires a value"
      | v :: rest2 =>
        if v = "" then .error "--url requires a value"
        else parseUpdateOptionsLoop rest2 { o with url := some v }
    else if arg = "--status" then
      match rest with
      | [] => .error "--status requires a value"
      | v :: rest2 =>
        if v = "" then .error "--status requires a value"
        else parseUpdateOptionsLoop rest2 { o with status := some v }
    else if arg = "--events" then
      match rest with
      | [] => .error "--events requires a value"
      | v :: rest2 =>
        if v = "" then .error "--events requires a value"
        else
          parseUpdateOptionsLoop rest2
            { o with events := some (((v.splitOn ",").map String.trim).filter (fun s => s ≠ "")) }
    else if startsWithDash arg then .error (s!"Unknown option: {arg}")
    else parseUpdateOptionsLoop rest o

/-- `parseUpdateOptions` of the webhooks command. -/
def parseUpdateOptions (args : List String) : Except String UpdateOptions :=
  parseUpdateOptionsLoop args {}

/-- JSON structures printed by the webhooks command: a list envelope or a
single webhook entity. -/
inductive WebhooksJson where
  | env (e : Envelope Webhook)
  | entity (w : Webhook)
deriving DecidableEq, Repr

/-- A rendered table row of the webhooks listing. -/
structure WebhookRow where
  id : String
  url : String
  status : String
  events : String
deriving DecidableEq, Repr

/-- Column specs passed to `printTable` by `listWebhooks`. -/
def webhookCols : List ColSpec :=
  [{ key := "id", header := "ID", width := 36 },
   { key := "url", header := "URL", width := 40 },
   { key := "status", header := "Status", width := 12 },
   { key := "events", header := "Events", width := 35 }]

/-- Typed fetch oracle for the webhooks command: the outcome of
`client.fetch` for each endpoint the command can hit. -/
structure WebhooksOracle where
  list : String → FetchR ListWebhooksResponse
  get : String → FetchR GetWebhookResponse
  create : String → FetchR GetWebhookResponse
  update : String → FetchR GetWebhookResponse
  delete : String → FetchR Unit

/-- The request path built by `listWebhooks` from its options. -/
def listWebhooksPath (o : ListOptions) : String :=
  let params := optParamStr "cursor" o.cursor ++ optParamInt "limit" o.limit
  let query := urlSearchParamsToString params
  if query = "" then "/v1/webhooks" else "/v1/webhooks?" ++ query

/-- `listWebhooks`. -/
def listWebhooks (oracle : WebhooksOracle) (options : ListOptions)
    (format : OutputFormat) :
    Except CliErr (List (OutEv WebhooksJson WebhookRow)) × List HttpReq :=
  let path := listWebhooksPath options
  match oracle.list path with
  | .error e => (.error e, [getReq path])
  | .ok response =>
    let webhooks := (nc response.items response.webhooks).getD []
    if format = .json then
      (.ok [.json (.env ⟨webhooks, response.next_cursor⟩)], [getReq path])
    else if webhooks.length = 0 then
      (.ok [.line "No webhooks configured."], [getReq path])
    else
      let tableEv : OutEv WebhooksJson WebhookRow :=
        .table (webhooks.map fun webhook =>
          { id := webhook.id,
            url := truncate (webhook.url.getD "-") 40,
            status := webhook.status.getD "-",
            events :=
              truncate
                (let joined := String.intercalate ", " (webhook.event_types.getD []);
                 if joined = "" then "-" else joined) 35 }) webhookCols
      let tail := match truthyStr response.next_cursor with
        | some cur => [OutEv.line (s!"\nNext cursor: {cur}")]
        | none => []
      (.ok ([tableEv] ++ tail), [getReq path])

/-- The webhook selected from a `GetWebhookResponse`:
`response.webhook ?? response.item ?? response`. -/
def selectWebhook (r : GetWebhookResponse) : Webhook :=
  match nc r.webhook r.item with
  | some w => w
  | none => r.toWebhook

/-- `getWebhook`. -/
def getWebhook (oracle : WebhooksOracle) (webhookId : String)
    (format : OutputFormat) :
    Except CliErr (List (OutEv WebhooksJson WebhookRow)) × List HttpReq :=
  let path := s!"/v1/webhooks/{webhookId}"
  match oracle.get path with
  | .error e => (.error e, [getReq path])
  | .ok response =>
    let webhook := selectWebhook response
    if format = .json then
      (.ok [.json (.entity webhook)], [getReq path])
    else
      let events := webhook.event_types.getD []
      let urlStr := webhook.url.getD "-"
      let statusStr := webhook.status.getD "-"
      let eventsStr := if events.length > 0 then String.intercalate ", " events else "-"
      let idStr := webhook.id
      (.ok [.line "Webhook Details", .line "───────────────",
            .line (s!"ID:      {idStr}"), .line (s!"URL:     {urlStr}"),
            .line (s!"Status:  {statusStr}"), .line (s!"Events:  {eventsStr}")],
       [getReq path])

/-- `createWebhook` (the POST body and idempotency header are built from the
options; only the request itself is traced). -/
def createWebhook (oracle : WebhooksOracle) (_options : CreateOptions)
    (format : OutputFormat) :
    Except CliErr (List (OutEv WebhooksJson WebhookRow)) × List HttpReq :=
  let path := "/v1/webhooks"
  let req : HttpReq := { method := "POST", path := path }
  match oracle.create path with
  | .error e => (.error e, [req])
  | .ok response =>
    let webhook := selectWebhook response
    if format = .json then
      (.ok [.json (.entity webhook)], [req])
    else
      let urlStr := webhook.url.getD "-"
      let statusStr := webhook.status.getD "-"
      let idStr := webhook.id
      (.ok [.line "Webhook Created", .line "───────────────",
            .line (s!"ID:     {idStr}"), .line (s!"URL:    {urlStr}"),
            .line (s!"Status: {statusStr}")], [req])

/-- `updateWebhook`: GET the existing webhook, then PUT the merged body. -/
def updateWebhook (oracle : WebhooksOracle) (webhookId : String)
    (_options : UpdateOptions) (format : OutputFormat) :
    Except CliErr (List (OutEv WebhooksJson WebhookRow)) × List HttpReq :=
  let path := s!"/v1/webhooks/{webhookId}"
  match oracle.get path with
  | .error e => (.error e, [getReq path])
  | .ok existing =>
    let current := selectWebhook existing
    if truthyStr current.url = none ∧ current.id = "" then
      (.error (.plain (s!"Could not retrieve existing webhook {webhookId} — unexpected API response")),
       [getReq path])
    else
      let putReq : HttpReq := { method := "PUT", path := path }
      match oracle.update path with
      | .error e => (.error e, [getReq path, putReq])
      | .ok response =>
        let webhook := selectWebhook response
        if format = .json then
          (.ok [.json (.entity webhook)], [getReq path, putReq])
        else
          let urlStr := webhook.url.getD "-"
          let statusStr := webhook.status.getD "-"
          let idStr := webhook.id
          (.ok [.line "Webhook Updated", .line "───────────────",
                .line (s!"ID:     {idStr}"), .line (s!"URL:    {urlStr}"),
                .line (s!"Status: {statusStr}")], [getReq path, putReq])

/-- `deleteWebhook`. -/
def deleteWebhook (oracle : WebhooksOracle) (webhookId : String) :
    Except CliErr (List (OutEv WebhooksJson WebhookRow)) × List HttpReq :=
  let path := s!"/v1/webhooks/{webhookId}"
  let req : HttpReq := { method := "DELETE", path := path }
  match oracle.delete path with
  | .error e => (.error e, [req])
  | .ok _ => (.ok [.line (s!"Webhook {webhookId} deleted.")], [req])

/-- `webhooksCommand.run`: strip the output flag, pick the subcommand
(default `list`), parse its options and dispatch. -/
def webhooksRun (oracle : WebhooksOracle) (args : List String) :
    Except CliErr (List (OutEv WebhooksJson WebhookRow)) × List HttpReq :=
  let fr := parseOutputFlag args
  let format := fr.1
  let remaining := fr.2
  let subcommand := (remaining.head?).getD "list"
  if subcommand = "list" then
    match parseListOptions (remaining.drop 1) with
    | .error e => (.error (.plain e), [])
    | .ok opts => listWebhooks oracle opts format
  else if subcommand = "get" then
    let webhookId := (remaining[1]?).getD ""
    if webhookId = "" then
      (.error (.plain "Missing webhook ID. Usage: brex webhooks get <webhook-id>"), [])
    else getWebhook oracle webhookId format
  else if subcommand = "create" then
    match parseCreateOptions (remaining.drop 1) with
    | .error e => (.error (.plain e), [])
    | .ok opts => createWebhook oracle opts format
  else if subcommand = "update" then
    let webhookId := (remaining[1]?).getD ""
    if webhookId = "" then
      (.error (.plain "Missing webhook ID. Usage: brex webhooks update <webhook-id> ..."), [])
    else
      match parseUpdateOptions (remaining.drop 2) with
      | .error e => (.error (.plain e), [])
      | .ok opts => updateWebhook oracle webhookId opts format
  else if subcommand = "delete" then
    let webhookId := (remaining[1]?).getD ""
    if webhookId = "" then
      (.error (.plain "Missing webhook ID. Usage: brex webhooks delete <webhook-id>"), [])
    else deleteWebhook oracle webhookId
  else if subcommand = "verify" then
    (.error (.plain "`brex webhooks verify` is not available in the current Brex Webhooks API."), [])
  else
    (.error (.plain (s!"Unknown subcommand: {subcommand}")), [])

end Brex.Webhooks

namespace Brex.Accounts

/-- `AccountType` of the accounts command (`"cash" | "card" | "all"`). -/
inductive AccountType where
  | cash
  | card
  | all
deriving DecidableEq, Repr

/-- `Exclude<AccountType, "all">`. -/
inductive CashOrCard where
  | cash
  | card
deriving DecidableEq, Repr

/-- The query-string value of a `CashOrCard`. -/
def CashOrCard.str : CashOrCard → String
  | .cash => "cash"
  | .card => "card"

/-- `ApiAmount` of the accounts command. -/
structure ApiAmount where
  amount : String
  currency : String
deriving DecidableEq, Repr

/-- `CashAccount`. -/
structure CashAccount where
  id : String
  account_name : Option String := none
  account_number : Option String := none
  routing_number : Option String := none
  current_balance : Option ApiAmount := none
  available_balance : Option ApiAmount := none
  created_at : Option String := none
  account_type : Option String := none
  status : Option String := none
deriving DecidableEq, Repr

/-- `CardAccount`. -/
structure CardAccount where
  id : String
  account_name : Option String := none
  current_balance : Option ApiAmount := none
  limit : Option ApiAmount := none
  created_at : Option String := none
  account_type : Option String := none
  status : Option String := none
deriving DecidableEq, Repr

/-- `AccountsPage<T>`: the heterogeneous list envelope with its candidate
item keys. -/
structure AccountsPage (α : Type) where
  items : Option (List α) := none
  accounts : Option (List α) := none
  cash_accounts : Option (List α) := none
  card_accounts : Option (List α) := none
  next_cursor : Option String := none
deriving DecidableEq, Repr

/-- The candidate extraction keys of `AccountsPage` (`keyof AccountsPage<T>`
restricted to the item collections). -/
inductive AccountsKey where
  | items
  | accounts
  | cash_accounts
  | card_accounts
deriving DecidableEq, Repr

/-- Field lookup on an `AccountsPage`; `some` corresponds exactly to
`Array.isArray(response[key])` being true. -/
def AccountsPage.getKey {α : Type} (r : AccountsPage α) : AccountsKey → Option (List α)
  | .items => r.items
  | .accounts => r.accounts
  | .cash_accounts => r.cash_accounts
  | .card_accounts => r.card_accounts

/-- `extractItems`: walk the candidate keys in order and return the first
value that is an array; `[]` when no key holds one. -/
def extractItems {α : Type} (r : AccountsPage α) : List AccountsKey → List α
  | [] => []
  | k :: keys =>
    match r.getKey k with
    | some v => v
    | none => extractItems r keys

/-- `AccountRow`: a normalized table row of the accounts listing. -/
structure AccountRow where
  id : String
  name : String
  type : String
  status : String
  accountNumber : String
  routingNumber : String
  available : String
  current : String
deriving DecidableEq, Repr

/-- `ListOptions` of the accounts command. -/
structure ListOptions where
  type : AccountType := .all
  cursor : Option String := none
deriving DecidableEq, Repr

/-- `GetOptions` of the accounts command. -/
structure GetOptions where
  type : Option CashOrCard := none
deriving DecidableEq, Repr

/-- The `parseListOptions` scan loop of the accounts command. -/
def parseListOptionsLoop : List String → ListOptions → Except String ListOptions
  | [], o => .ok o
  | arg :: rest, o =>
    if arg = "" then parseListOptionsLoop rest o
    else if arg = "--type" then
      match rest with
      | [] => .error "--type must be one of: cash, card, all"
      | v :: rest2 =>
        if v = "cash" then parseListOptionsLoop rest2 { o with type := .cash }
        else if v = "card" then parseListOptionsLoop rest2 { o with type := .card }
        else if v = "all" then parseListOptionsLoop rest2 { o with type := .all }
        else .error "--type must be one of: cash, card, all"
    else if arg = "--cursor" then
      match rest with
      | [] => .error "--cursor requires a value"
      | v :: rest2 =>
        if v = "" then .error "--cursor requires a value"
        else parseListOptionsLoop rest2 { o with cursor := some v }
    else if startsWithDash arg then .error (s!"Unknown option: {arg}")
    else parseListOptionsLoop rest o

/-- `parseListOptions` of the accounts command, including the final
`--cursor` / `--type all` compatibility check. -/
def parseListOptions (args : List String) : Except String ListOptions :=
  match parseListOptionsLoop args {} with
  | .error e => .error e
  | .ok o =>
    if o.type = .all ∧ (truthyStr o.cursor).isSome then
      .error "--cursor can only be used with --type cash or --type card"
    else .ok o

/-- The `parseGetOptions` scan loop of the accounts command. -/
def parseGetOptionsLoop : List String → GetOptions → Except String GetOptions
  | [], o => .ok o
  | arg :: rest, o =>
    if arg = "" then parseGetOptionsLoop rest o
    else if arg = "--type" then
      match rest with
      | [] => .error "--type must be one of: cash, card"
      | v :: rest2 =>
        if v = "cash" then parseGetOptionsLoop rest2 { o with type := some .cash }
        else if v = "card" then parseGetOptionsLoop rest2 { o with type := some .card }
        else .error "--type must be one of: cash, card"
    else if startsWithDash arg then .error (s!"Unknown option: {arg}")
    else parseGetOptionsLoop rest o

/-- `parseGetOptions` of the accounts command. -/
def parseGetOptions (args : List String) : Except String GetOptions :=
  parseGetOptionsLoop args {}

/-- `withCursor` of the accounts command: append the cursor, URI-component
encoded, as the single query parameter. -/
def withCursor (path : String) (cursor : Option String) : String :=
  match truthyStr cursor with
  | none => path
  | some c => path ++ "?cursor=" ++ encodeURIComponent c

/-- `CashAccount | CardAccount`. -/
inductive AnyAccount where
  | cash (a : CashAccount)
  | card (a : CardAccount)
deriving DecidableEq, Repr

/-- `formatMoney`. -/
def formatMoney (balance : Option ApiAmount) : String :=
  match balance with
  | none => "-"
  | some b => formatAmount (.str b.amount) (some b.currency)

/-- `toAccountRow`: the `"available_balance" in account` / `"account_number"
in account` narrowing distinguishes the two account shapes. -/
def toAccountRow (account : AnyAccount) (type : CashOrCard) : AccountRow :=
  match account with
  | .cash a =>
    { id := a.id,
      name := a.account_name.getD "-",
      type := a.account_type.getD type.str,
      status := a.status.getD "-",
      accountNumber := a.account_number.getD "-",
      routingNumber := a.routing_number.getD "-",
      available := formatMoney (nc a.available_balance a.current_balance),
      current := formatMoney a.current_balance }
  | .card a =>
    { id := a.id,
      name := a.account_name.getD "-",
      type := a.account_type.getD type.str,
      status := a.status.getD "-",
      accountNumber := "-",
      routingNumber := "-",
      available := formatMoney (nc none a.current_balance),
      current := formatMoney a.current_balance }

/-- JSON structures printed by the accounts command. -/
inductive AccountsJson where
  | cashEnv (e : Envelope CashAccount)
  | cardEnv (e : Envelope CardAccount)
  | combined (cash : Envelope CashAccount) (card : Envelope CardAccount)
  | cashEntity (a : CashAccount)
  | cardEntity (a : CardAccount)
deriving DecidableEq, Repr

/-- Column specs passed to `printTable` by `printAccountsTable`. -/
def accountCols : List ColSpec :=
  [{ key := "id", header := "ID", width := 36 },
   { key := "name", header := "Name", width := 22 },
   { key := "type", header := "Type", width := 12 },
   { key := "status", header := "Status", width := 10 },
   { key := "accountNumber", header := "Account #", width := 12 },
   { key := "available", header := "Available", width := 14 },
   { key := "current", header := "Current", width := 14 }]

/-- `printAccountsTable`. -/
def printAccountsTable (rows : List AccountRow) : List (OutEv AccountsJson AccountRow) :=
  if rows.length = 0 then [.line "No accounts found."]
  else [.table rows accountCols]

/-- Typed fetch oracle for the accounts command. -/
structure AccountsOracle where
  cashList : String → FetchR (AccountsPage CashAccount)
  cardList : String → FetchR (AccountsPage CardAccount)
  cashGet : String → FetchR CashAccount
  cardGet : String → FetchR CardAccount

/-- Which of the two concurrent fetches of the combined listing settles
first; the value is chosen by the environment, not the program. -/
inductive Completion where
  | cashFirst
  | cardFirst
deriving DecidableEq, Repr

/-- `Promise.all` over the two concurrent fetches: the result pair is
positional regardless of settlement order; the order decides only which
rejection wins when both fetches fail. -/
def promiseAll2 {E A B : Type} (order : Completion)
    (a : Except E A) (b : Except E B) : Except E (A × B) :=
  match a, b with
  | .ok x, .ok y => .ok (x, y)
  | .error e, .ok _ => .error e
  | .ok _, .error e => .error e
  | .error e1, .error e2 =>
    match order with
    | .cashFirst => .error e1
    | .cardFirst => .error e2

/-- `listAccounts`: single-kind listings fetch one endpoint; the combined
`all` listing issues both fetches concurrently and merges cash items before
card items. -/
def listAccounts (oracle : AccountsOracle) (order : Completion)
    (options : ListOptions) (format : OutputFormat) :
    Except CliErr (List (OutEv AccountsJson AccountRow)) × List HttpReq :=
  let cashPath := withCursor "/v2/accounts/cash" options.cursor
  let cardPath := withCursor "/v2/accounts/card" options.cursor
  if options.type = .cash then
    match oracle.cashList cashPath with
    | .error e => (.error e, [getReq cashPath])
    | .ok cashResponse =>
      let cashAccounts := extractItems cashResponse [.items, .cash_accounts, .accounts]
      if format = .json then
        (.ok [.json (.cashEnv ⟨cashAccounts, cashResponse.next_cursor⟩)], [getReq cashPath])
      else
        let outs := printAccountsTable (cashAccounts.map fun account => toAccountRow (.cash account) .cash)
        let tail := match truthyStr cashResponse.next_cursor with
          | some cur => [OutEv.line (s!"\nNext cursor: {cur}")]
          | none => []
        (.ok (outs ++ tail), [getReq cashPath])
  else if options.type = .card then
    match oracle.cardList cardPath with
    | .error e => (.error e, [getReq cardPath])
    | .ok cardResponse =>
      let cardAccounts := extractItems cardResponse [.items, .card_accounts, .accounts]
      if format = .json then
        (.ok [.json (.cardEnv ⟨cardAccounts, cardResponse.next_cursor⟩)], [getReq cardPath])
      else
        let outs := printAccountsTable (cardAccounts.map fun account => toAccountRow (.card account) .card)
        let tail := match truthyStr cardResponse.next_cursor with
          | some cur => [OutEv.line (s!"\nNext cursor: {cur}")]
          | none => []
        (.ok (outs ++ tail), [getReq cardPath])
  else
    match promiseAll2 order (oracle.cashList cashPath) (oracle.cardList cardPath) with
    | .error e => (.error e, [getReq cashPath, getReq cardPath])
    | .ok (cashResponse, cardResponse) =>
      let cashAccounts := extractItems cashResponse [.items, .cash_accounts, .accounts]
      let cardAccounts := extractItems cardResponse [.items, .card_accounts, .accounts]
      if format = .json then
        (.ok [.json (.combined ⟨cashAccounts, cashResponse.next_cursor⟩
                               ⟨cardAccounts, cardResponse.next_cursor⟩)],
         [getReq cashPath, getReq cardPath])
      else
        let rows :=
          (cashAccounts.map fun account => toAccountRow (.cash account) .cash) ++
          (cardAccounts.map fun account => toAccountRow (.card account) .card)
        (.ok (printAccountsTable rows), [getReq cashPath, getReq cardPath])

/-- `renderAccount`. -/
def renderAccount (account : AnyAccount) (type : CashOrCard) (format : OutputFormat) :
    List (OutEv AccountsJson AccountRow) :=
  if format = .json then
    match account with
    | .cash a => [.json (.cashEntity a)]
    | .card a => [.json (.cardEntity a)]
  else
    let row := toAccountRow account type
    let idStr := row.id
    let nameStr := row.name
    let typeStr := row.type
    let statusStr := row.status
    let acctNum := row.accountNumber
    let routNum := row.routingNumber
    let availStr := row.available
    let currStr := row.current
    [OutEv.line "Account Details", .line "───────────────",
     .line (s!"ID:              {idStr}"), .line (s!"Name:            {nameStr}"),
     .line (s!"Type:            {typeStr}"), .line (s!"Status:          {statusStr}")] ++
    (if acctNum ≠ "-" then [OutEv.line (s!"Account Number:  {acctNum}")] else []) ++
    (if routNum ≠ "-" then [OutEv.line (s!"Routing Number:  {routNum}")] else []) ++
    [OutEv.line (s!"Available:       {availStr}"), .line (s!"Current:         {currStr}")]

/-- `getAccount`: with an explicit `--type` the matching endpoint is fetched;
without one the cash endpoint is tried first and the card endpoint is the
fallback, taken exactly when the cash fetch failed with a `BrexApiError`
whose status is 404. -/
def getAccount (oracle : AccountsOracle) (accountId : String)
    (options : GetOptions) (format : OutputFormat) :
    Except CliErr (List (OutEv AccountsJson AccountRow)) × List HttpReq :=
  let cashPath := s!"/v2/accounts/cash/{accountId}"
  let cardPath := s!"/v2/accounts/card/{accountId}"
  match options.type with
  | some .cash =>
    match oracle.cashGet cashPath with
    | .error e => (.error e, [getReq cashPath])
    | .ok account => (.ok (renderAccount (.cash account) .cash format), [getReq cashPath])
  | some .card =>
    match oracle.cardGet cardPath with
    | .error e => (.error e, [getReq cardPath])
    | .ok account => (.ok (renderAccount (.card account) .card format), [getReq cardPath])
  | none =>
    match oracle.cashGet cashPath with
    | .ok account => (.ok (renderAccount (.cash account) .cash format), [getReq cashPath])
    | .error err =>
      match err with
      | .api e =>
        if e.status ≠ 404 then (.error (.api e), [getReq cashPath])
        else
          match oracle.cardGet cardPath with
          | .error e2 => (.error e2, [getReq cashPath, getReq cardPath])
          | .ok cardAccount =>
            (.ok (renderAccount (.card cardAccount) .card format),
             [getReq cashPath, getReq cardPath])
      | .plain m => (.error (.plain m), [getReq cashPath])

/-- `accountsCommand.run`. -/
def accountsRun (oracle : AccountsOracle) (order : Completion) (args : List String) :
    Except CliErr (List (OutEv AccountsJson AccountRow)) × List HttpReq :=
  let fr := parseOutputFlag args
  let format := fr.1
  let remaining := fr.2
  let subcommand := (remaining.head?).getD "list"
  if subcommand = "list" then
    match parseListOptions (remaining.drop 1) with
    | .error e => (.error (.plain e), [])
    | .ok opts => listAccounts oracle order opts format
  else if subcommand = "get" then
    let accountId := (remaining[1]?).getD ""
    if accountId = "" then
      (.error (.plain "Missing account ID. Usage: brex accounts get <account-id> [--type cash|card]"), [])
    else
      match parseGetOptions (remaining.drop 2) with
      | .error e => (.error (.plain e), [])
      | .ok opts => getAccount oracle accountId opts format
  else
    (.error (.plain (s!"Unknown subcommand: {subcommand}. Use 'list' or 'get'.")), [])

end Brex.Accounts

namespace Brex.Cards

/-- `Card` from the cards command module; expiration fields may be strings
or numbers. -/
structure Card where
  id : String
  card_name : Option String := none
  status : Option String := none
  expiration_month : Option JsNum := none
  expiration_year : Option JsNum := none
  last_four : Option String := none
  last_4 : Option String := none
  cardholder_user_id : Option String := none
deriving DecidableEq, Repr

/-- `ListCardsResponse`. -/
structure ListCardsResponse where
  items : Option (List Card) := none
  cards : Option (List Card) := none
  next_cursor : Option String := none
deriving DecidableEq, Repr

/-- `ListOptions` of the cards command. -/
structure ListOptions where
  userId : Option String := none
  cursor : Option String := none
  limit : Option Int := none
deriving DecidableEq, Repr

/-- JavaScript truthiness on a string-or-number value: `undefined`, `""`
and `0` are falsy. -/
def jsTruthyNum (o : Option JsNum) : Option JsNum :=
  match o with
  | some (.str s) => if s = "" then none else some (.str s)
  | some (.int n) => if n = 0 then none else some (.int n)
  | some .undef => none
  | none => none

/-- `String(x)` on a string-or-number value. -/
def jsNumToString : JsNum → String
  | .str s => s
  | .int n => toString n
  | .undef => "undefined"

/-- `String.prototype.padStart`. -/
def padStart (s : String) (n : Nat) (c : Char) : String :=
  if s.length < n then String.mk (List.replicate (n - s.length) c) ++ s else s

/-- `formatExpiration`. -/
def formatExpiration (month year : Option JsNum) : String :=
  match jsTruthyNum month, jsTruthyNum year with
  | some m, some y => padStart (jsNumToString m) 2 '0' ++ "/" ++ jsNumToString y
  | _, _ => "-"

/-- A rendered table row of the cards listing. -/
structure CardRow where
  id : String
  name : String
  last4 : String
  status : String
  expires : String
  userId : String
deriving DecidableEq, Repr

/-- Column specs passed to `printTable` by `listCards`. -/
def cardCols : List ColSpec :=
  [{ key := "id", header := "Card ID", width := 36 },
   { key := "name", header := "Name", width := 22 },
   { key := "last4", header := "Last 4", width := 8 },
   { key := "status", header := "Status", width := 12 },
   { key := "expires", header := "Expires", width := 10 },
   { key := "userId", header := "User ID", width := 36 }]

/-- The request path built by `listCards`. -/
def listCardsPath (o : ListOptions) : String :=
  let params := optParamStr "user_id" o.userId ++ optParamStr "cursor" o.cursor ++
    optParamInt "limit" o.limit
  let query := urlSearchParamsToString params
  if query = "" then "/v2/cards" else "/v2/cards?" ++ query

/-- `listCards`. -/
def listCards (fetchList : String → FetchR ListCardsResponse)
    (options : ListOptions) (format : OutputFormat) :
    Except CliErr (List (OutEv (Envelope Card) CardRow)) × List HttpReq :=
  let path := listCardsPath options
  match fetchList path with
  | .error e => (.error e, [getReq path])
  | .ok response =>
    let cards := (nc response.items response.cards).getD []
    if format = .json then
      (.ok [.json ⟨cards, response.next_cursor⟩], [getReq path])
    else if cards.length = 0 then
      (.ok [.line "No cards found."], [getReq path])
    else
      let tableEv : OutEv (Envelope Card) CardRow :=
        .table (cards.map fun card =>
          { id := card.id,
            name := card.card_name.getD "-",
            last4 := (nc card.last_four card.last_4).getD "-",
            status := card.status.getD "-",
            expires := formatExpiration card.expiration_month card.expiration_year,
            userId := card.cardholder_user_id.getD "-" }) cardCols
      let tail := match truthyStr response.next_cursor with
        | some cur => [OutEv.line (s!"\nNext cursor: {cur}")]
        | none => []
      (.ok ([tableEv] ++ tail), [getReq path])

end Brex.Cards

namespace Brex.Users

/-- `User` from the users command module. -/
structure User where
  id : String
  first_name : Option String := none
  last_name : Option String := none
  email : Option String := none
  department : Option String := none
  manager_id : Option String := none
  status : Option String := none
deriving DecidableEq, Repr

/-- `ListUsersResponse`. -/
structure ListUsersResponse where
  items : Option (List User) := none
  users : Option (List User) := none
  next_cursor : Option String := none
deriving DecidableEq, Repr

/-- `ListOptions` of the users command. -/
structure ListOptions where
  cursor : Option String := none
  email : Option String := none
deriving DecidableEq, Repr

/-- A rendered table row of the users listing. -/
structure UserRow where
  id : String
  firstName : String
  lastName : String
  email : String
  department : String
  status : String
deriving DecidableEq, Repr

/-- Column specs passed to `printTable` by `listUsers`. -/
def userCols : List ColSpec :=
  [{ key := "id", header := "ID", width := 36 },
   { key := "firstName", header := "First Name", width := 14 },
   { key := "lastName", header := "Last Name", width := 14 },
   { key := "email", header := "Email", width := 30 },
   { key := "department", header := "Department", width := 15 },
   { key := "status", header := "Status", width := 10 }]

/-- The request path built by `listUsers`. -/
def listUsersPath (o : ListOptions) : String :=
  let params := optParamStr "cursor" o.cursor ++ optParamStr "email" o.email
  let query := urlSearchParamsToString params
  if query = "" then "/v2/users" else "/v2/users?" ++ query

/-- `listUsers`. -/
def listUsers (fetchList : String → FetchR ListUsersResponse)
    (options : ListOptions) (format : OutputFormat) :
    Except CliErr (List (OutEv (Envelope User) UserRow)) × List HttpReq :=
  let path := listUsersPath options
  match fetchList path with
  | .error e => (.error e, [getReq path])
  | .ok response =>
    let users := (nc response.items response.users).getD []
    if format = .json then
      (.ok [.json ⟨users, response.next_cursor⟩], [getReq path])
    else if users.length = 0 then
      (.ok [.line "No users found."], [getReq path])
    else
      let tableEv : OutEv (Envelope User) UserRow :=
        .table (users.map fun user =>
          { id := user.id,
            firstName := user.first_name.getD "-",
            lastName := user.last_name.getD "-",
            email := user.email.getD "-",
            department := user.department.getD "-",
            status := user.status.getD "-" }) userCols
      let tail := match truthyStr response.next_cursor with
        | some cur => [OutEv.line (s!"\nMore results available. Run with: --cursor {cur}")]
        | none => []
      (.ok ([tableEv] ++ tail), [getReq path])

end Brex.Users

namespace Brex.Statements

/-- `StatementScope` (`"primary" | "additional"`). -/
inductive StatementScope where
  | primary
  | additional
deriving DecidableEq, Repr

/-- `StatementAmount` (`amount?: number`). -/
structure StatementAmount where
  amount : Option Int := none
  currency : Option String := none
deriving DecidableEq, Repr

/-- `period` sub-object of a statement. -/
structure StatementPeriod where
  start_date : Option String := none
  end_date : Option String := none
deriving DecidableEq, Repr

/-- `AccountStatement`. -/
structure AccountStatement where
  id : String
  statement_status : Option String := none
  period_start_date : Option String := none
  period_end_date : Option String := none
  period : Option StatementPeriod := none
  start_balance : Option StatementAmount := none
  end_balance : Option StatementAmount := none
  due_date : Option String := none
  download_url : Option String := none
  created_at : Option String := none
deriving DecidableEq, Repr

/-- `ListStatementsResponse`. -/
structure ListStatementsResponse where
  items : Option (List AccountStatement) := none
  next_cursor : Option String := none
  statements : Option (List AccountStatement) := none
deriving DecidableEq, Repr

/-- `ListOptions` of the statements command. -/
structure ListOptions where
  scope : StatementScope := .primary
  accountId : Option String := none
  cursor : Option String := none
deriving DecidableEq, Repr

/-- `withCursor` of the statements command (identical text to the accounts
version). -/
def withCursor (path : String) (cursor : Option String) : String :=
  match truthyStr cursor with
  | none => path
  | some c => path ++ "?cursor=" ++ encodeURIComponent c

/-- A rendered table row of the statements listing; the `endDate` field
embeds the source row key `end` (a Lean keyword). -/
structure StatementRow where
  id : String
  start : String
  endDate : String
  startBal : String
  endBal : String
deriving DecidableEq, Repr

/-- Column specs passed to `printTable` by `listStatements`. -/
def statementCols : List ColSpec :=
  [{ key := "id", header := "Statement ID", width := 36 },
   { key := "start", header := "Start", width := 12 },
   { key := "end", header := "End", width := 12 },
   { key := "startBal", header := "Start Bal", width := 14 },
   { key := "endBal", header := "End Bal", width := 14 }]

/-- The balance cell of a statement row. -/
def balanceCell (b : Option StatementAmount) : String :=
  match b with
  | some bal =>
    formatAmount (match bal.amount with | some n => .int n | none => .undef) bal.currency
  | none => "-"

/-- The request path built by `listStatements`. -/
def listStatementsPath (o : ListOptions) : String :=
  match o.scope with
  | .primary => withCursor "/v2/accounts/card/primary/statements" o.cursor
  | .additional =>
    let aid := o.accountId.getD "undefined"
    withCursor (s!"/v2/accounts/card/additional/{aid}/statements") o.cursor

/-- `listStatements`. -/
def listStatements (fetchList : String → FetchR ListStatementsResponse)
    (options : ListOptions) (format : OutputFormat) :
    Except CliErr (List (OutEv (Envelope AccountStatement) StatementRow)) × List HttpReq :=
  let path := listStatementsPath options
  match fetchList path with
  | .error e => (.error e, [getReq path])
  | .ok response =>
    let statements := (nc response.items response.statements).getD []
    if format = .json then
      (.ok [.json ⟨statements, response.next_cursor⟩], [getReq path])
    else if statements.length = 0 then
      (.ok [.line "No statements found."], [getReq path])
    else
      let tableEv : OutEv (Envelope AccountStatement) StatementRow :=
        .table (statements.map fun statement =>
          { id := statement.id,
            start := formatDate (nc statement.period_start_date
              ((statement.period.map StatementPeriod.start_date).getD none)),
            endDate := formatDate (nc statement.period_end_date
              ((statement.period.map StatementPeriod.end_date).getD none)),
            startBal := balanceCell statement.start_balance,
            endBal := balanceCell statement.end_balance }) statementCols
      let tail := match truthyStr response.next_cursor with
        | some cur => [OutEv.line (s!"\nMore results available. Run with: --cursor {cur}")]
        | none => []
      (.ok ([tableEv] ++ tail), [getReq path])

end Brex.Statements

namespace Brex.Transactions

/-- `ApiAmount` of the transactions command (decimal-string amounts). -/
structure ApiAmount where
  amount : String
  currency : String
deriving DecidableEq, Repr

/-- `BrexTransaction`. -/
structure BrexTransaction where
  id : String
  status : Option String := none
  description : Option String := none
  memo : Option String := none
  posted_at : Option String := none
  initiated_at : Option String := none
  transaction_type : Option String := none
  transaction_source_type : Option String := none
  merchant_name : Option String := none
  counterparty_name : Option String := none
  amount : Option ApiAmount := none
deriving DecidableEq, Repr

/-- `ListTransactionsResponse`. -/
structure ListTransactionsResponse where
  items : Option (List BrexTransaction) := none
  transactions : Option (List BrexTransaction) := none
  next_cursor : Option String := none
deriving DecidableEq, Repr

/-- `ListOptions` of the transactions command. -/
structure ListOptions where
  type : Accounts.CashOrCard := .cash
  limit : Option Int := none
  cursor : Option String := none
  startTime : Option String := none
  endTime : Option String := none
deriving DecidableEq, Repr

/-- `withQuery`. -/
def withQuery (path : String) (options : ListOptions) : String :=
  let params := optParamInt "limit" options.limit ++ optParamStr "cursor" options.cursor ++
    optParamStr "start_time" options.startTime ++ optParamStr "end_time" options.endTime
  let query := urlSearchParamsToString params
  if query = "" then path else path ++ "?" ++ query

/-- A rendered table row of the transactions listing. -/
structure TransactionRow where
  id : String
  type : String
  status : String
  amount : String
  counterparty : String
  postedAt : String
deriving DecidableEq, Repr

/-- `toTableRow`. -/
def toTableRow (transaction : BrexTransaction) : TransactionRow :=
  { id := transaction.id,
    type := truncate (transaction.transaction_type.getD "-") 16,
    status := transaction.status.getD "-",
    amount := match transaction.amount with
      | some a => formatAmount (.str a.amount) (some a.currency)
      | none => "-",
    counterparty := truncate ((nc transaction.counterparty_name transaction.merchant_name).getD "-") 25,
    postedAt := formatDateTime (nc transaction.posted_at transaction.initiated_at) }

/-- Column specs passed to `printTable` by `listTransactions`. -/
def transactionCols : List ColSpec :=
  [{ key := "id", header := "ID", width := 36 },
   { key := "type", header := "Type", width := 16 },
   { key := "status", header := "Status", width := 12 },
   { key := "amount", header := "Amount", width := 14 },
   { key := "counterparty", header := "Counterparty", width := 25 },
   { key := "postedAt", header := "Posted", width := 20 }]

/-- `listTransactions`. -/
def listTransactions (fetchList : String → FetchR ListTransactionsResponse)
    (accountId : String) (options : ListOptions) (format : OutputFormat) :
    Except CliErr (List (OutEv (Envelope BrexTransaction) TransactionRow)) × List HttpReq :=
  let pathBase := match options.type with
    | .cash => s!"/v2/transactions/cash/{accountId}"
    | .card => s!"/v2/transactions/card/{accountId}"
  let path := withQuery pathBase options
  match fetchList path with
  | .error e => (.error e, [getReq path])
  | .ok response =>
    let transactions := (nc response.items response.transactions).getD []
    if format = .json then
      (.ok [.json ⟨transactions, response.next_cursor⟩], [getReq path])
    else if transactions.length = 0 then
      (.ok [.line "No transactions found."], [getReq path])
    else
      let tableEv : OutEv (Envelope BrexTransaction) TransactionRow :=
        .table (transactions.map toTableRow) transactionCols
      let tail := match truthyStr response.next_cursor with
        | some cur => [OutEv.line (s!"\nNext cursor: {cur}")]
        | none => []
      (.ok ([tableEv] ++ tail), [getReq path])

end Brex.Transactions

namespace Brex.TransactionsAlt

/-- `ApiAmount` of the alternate transactions module (numeric amounts). -/
structure ApiAmount where
  amount : Int
  currency : Option String := none
deriving DecidableEq, Repr

/-- `merchant` sub-object. -/
structure Merchant where
  raw_descriptor : String
  mcc : String
  country : String
deriving DecidableEq, Repr

/-- `BrexTransaction` of the alternate transactions module. -/
structure BrexTransaction where
  id : String
  description : String
  amount : Option ApiAmount := none
  initiated_at_date : String
  posted_at_date : String
  type : Option String := none
  card_id : Option String := none
  merchant : Option Merchant := none
  expense_id : Option String := none
  transfer_id : Option String := none
deriving DecidableEq, Repr

/-- `ListTransactionsResponse` (`items` may still be missing at runtime). -/
structure ListTransactionsResponse where
  items : Option (List BrexTransaction) := none
  next_cursor : Option String := none
deriving DecidableEq, Repr

/-- `ListOptions` of the alternate transactions module. -/
structure ListOptions where
  type : Accounts.CashOrCard := .cash
  limit : Option Int := none
  cursor : Option String := none
  postedAtStart : Option String := none
deriving DecidableEq, Repr

/-- `withQuery`. -/
def withQuery (path : String) (options : ListOptions) : String :=
  let params := optParamInt "limit" options.limit ++ optParamStr "cursor" options.cursor ++
    optParamStr "posted_at_start" options.postedAtStart
  let query := urlSearchParamsToString params
  if query = "" then path else path ++ "?" ++ query

/-- A rendered table row of the alternate transactions listing. -/
structure TransactionRow where
  id : String
  type : String
  amount : String
  description : String
  postedAt : String
deriving DecidableEq, Repr

/-- `toTableRow`. -/
def toTableRow (transaction : BrexTransaction) : TransactionRow :=
  { id := transaction.id,
    type := truncate (transaction.type.getD "-") 16,
    amount := match transaction.amount with
      | some a => formatAmount (.int a.amount) a.currency
      | none => "-",
    description := truncate
      ((nc (transaction.merchant.map Merchant.raw_descriptor) (some transaction.description)).getD "-") 28,
    postedAt := formatDate (some transaction.posted_at_date) }

/-- Column specs passed to `printTable` by the alternate `listTransactions`. -/
def transactionCols : List ColSpec :=
  [{ key := "id", header := "ID", width := 36 },
   { key := "type", header := "Type", width := 16 },
   { key := "amount", header := "Amount", width := 14 },
   { key := "description", header := "Description", width := 28 },
   { key := "postedAt", header := "Posted", width := 12 }]

/-- `listTransactions` of the alternate transactions module. -/
def listTransactions (fetchList : String → FetchR ListTransactionsResponse)
    (accountId : String) (options : ListOptions) (format : OutputFormat) :
    Except CliErr (List (OutEv (Envelope BrexTransaction) TransactionRow)) × List HttpReq :=
  let pathBase := match options.type with
    | .cash => s!"/v2/transactions/cash/{accountId}"
    | .card => "/v2/transactions/card/primary"
  let path := withQuery pathBase options
  match fetchList path with
  | .error e => (.error e, [getReq path])
  | .ok response =>
    let transactions := response.items.getD []
    if format = .json then
      (.ok [.json ⟨transactions, response.next_cursor⟩], [getReq path])
    else if transactions.length = 0 then
      (.ok [.line "No transactions found."], [getReq path])
    else
      let tableEv : OutEv (Envelope BrexTransaction) TransactionRow :=
        .table (transactions.map toTableRow) transactionCols
      let tail := match truthyStr response.next_cursor with
        | some cur => [OutEv.line (s!"\nMore results available. Run with: --cursor {cur}")]
        | none => []
      (.ok ([tableEv] ++ tail), [getReq path])

end Brex.TransactionsAlt

namespace Brex.Vendors

/-- `PaymentAccountDetails` of the recipients command. -/
structure PaymentAccountDetails where
  type : String
  payment_instrument_id : Option String := none
  routing_number : Option String := none
  account_number : Option String := none
  account_type : Option String := none
  account_class : Option String := none
  beneficiary_name : Option String := none
deriving DecidableEq, Repr

/-- `PaymentAccount`. -/
structure PaymentAccount where
  details : PaymentAccountDetails
deriving DecidableEq, Repr

/-- `Vendor`. -/
structure Vendor where
  id : String
  company_name : Option String := none
  email : Option String := none
  phone : Option String := none
  payment_accounts : Option (List PaymentAccount) := none
deriving DecidableEq, Repr

/-- `ListVendorsResponse` (`items` may still be missing at runtime). -/
structure ListVendorsResponse where
  items : Option (List Vendor) := none
  next_cursor : Option String := none
deriving DecidableEq, Repr

/-- `ListOptions` of the recipients command. -/
structure ListOptions where
  limit : Option Int := none
  cursor : Option String := none
  name : Option String := none
deriving DecidableEq, Repr

/-- `--account-type` domain (`"CHECKING" | "SAVING"`). -/
inductive ACHAccountType where
  | CHECKING
  | SAVING
deriving DecidableEq, Repr

/-- `--account-class` domain (`"BUSINESS" | "PERSONAL"`). -/
inductive ACHAccountClass where
  | BUSINESS
  | PERSONAL
deriving DecidableEq, Repr

/-- `CreateVendorOptions`. -/
structure CreateVendorOptions where
  companyName : String
  email : Option String := none
  phone : Option String := none
  routingNumber : Option String := none
  accountNumber : Option String := none
  accountType : Option ACHAccountType := none
  accountClass : Option ACHAccountClass := none
  idempotencyKey : String
deriving DecidableEq, Repr

/-- Accumulator of the `parseCreateOptions` scan loop. -/
structure CreateAcc where
  companyName : Option String := none
  email : Option String := none
  phone : Option String := none
  routingNumber : Option String := none
  accountNumber : Option String := none
  accountType : Option ACHAccountType := none
  accountClass : Option ACHAccountClass := none
  idempotencyKey : Option String := none
deriving DecidableEq, Repr

/-- The `parseCreateOptions` scan loop of the recipients command; the
`--account-type` and `--account-class` enumeration flags uppercase and
validate their consumed value immediately (a missing value hits the same
domain error). -/
def parseCreateOptionsLoop : List String → CreateAcc → Except String CreateAcc
  | [], acc => .ok acc
  | arg :: rest, acc =>
    if arg = "" then parseCreateOptionsLoop rest acc
    else if arg = "--name" then
      match rest with
      | [] => .error "--name requires a company name"
      | v :: rest2 =>
        if v = "" then .error "--name requires a company name"
        else parseCreateOptionsLoop rest2 { acc with companyName := some v }
    else if arg = "--email" then
      match rest with
      | [] => .error "--email requires a value"
      | v :: rest2 =>
        if v = "" then .error "--email requires a value"
        else parseCreateOptionsLoop rest2 { acc with email := some v }
    else if arg = "--phone" then
      match rest with
      | [] => .error "--phone requires a value"
      | v :: rest2 =>
        if v = "" then .error "--phone requires a value"
        else parseCreateOptionsLoop rest2 { acc with phone := some v }
    else if arg = "--routing" then
      match rest with
      | [] => .error "--routing requires a routing number"
      | v :: rest2 =>
        if v = "" then .error "--routing requires a routing number"
        else parseCreateOptionsLoop rest2 { acc with routingNumber := some v }
    else if arg = "--account" then
      match rest with
      | [] => .error "--account requires an account number"
      | v :: rest2 =>
        if v = "" then .error "--account requires an account number"
        else parseCreateOptionsLoop rest2 { acc with accountNumber := some v }
    else if arg = "--account-type" then
      match rest with
      | [] => .error "--account-type must be CHECKING or SAVING"
      | v :: rest2 =>
        let u := toUpperJS v
        if u = "CHECKING" then parseCreateOptionsLoop rest2 { acc with accountType := some .CHECKING }
        else if u = "SAVING" then parseCreateOptionsLoop rest2 { acc with accountType := some .SAVING }
        else .error "--account-type must be CHECKING or SAVING"
    else if arg = "--account-class" then
      match rest with
      | [] => .error "--account-class must be BUSINESS or PERSONAL"
      | v :: rest2 =>
        let u := toUpperJS v
        if u = "BUSINESS" then parseCreateOptionsLoop rest2 { acc with accountClass := some .BUSINESS }
        else if u = "PERSONAL" then parseCreateOptionsLoop rest2 { acc with accountClass := some .PERSONAL }
        else .error "--account-class must be BUSINESS or PERSONAL"
    else if arg = "--idempotency-key" then
      match rest with
      | [] => .error "--idempotency-key requires a value"
      | v :: rest2 =>
        if v = "" then .error "--idempotency-key requires a value"
        else parseCreateOptionsLoop rest2 { acc with idempotencyKey := some v }
    else if startsWithDash arg then .error (s!"Unknown option: {arg}")
    else parseCreateOptionsLoop rest acc

/-- `parseCreateOptions` of the recipients command; `freshKey` models the
`crypto.randomUUID()` default for the idempotency key. -/
def parseCreateOptions (freshKey : String) (args : List String) :
    Except String CreateVendorOptions :=
  match parseCreateOptionsLoop args {} with
  | .error e => .error e
  | .ok acc =>
    match acc.companyName with
    | none => .error "Missing required --name <company-name>"
    | some name =>
      let achProvided :=
        ((if acc.routingNumber.isSome then 1 else 0) : Nat) +
        (if acc.accountNumber.isSome then 1 else 0) +
        (if acc.accountType.isSome then 1 else 0) +
        (if acc.accountClass.isSome then 1 else 0)
      if achProvided > 0 ∧ achProvided < 4 then
        .error "ACH payment account requires all of: --routing, --account, --account-type, --account-class"
      else
        .ok { companyName := name, email := acc.email, phone := acc.phone,
              routingNumber := acc.routingNumber, accountNumber := acc.accountNumber,
              accountType := acc.accountType, accountClass := acc.accountClass,
              idempotencyKey := acc.idempotencyKey.getD freshKey }

/-- A rendered table row of the vendors listing. -/
structure VendorRow where
  id : String
  name : String
  email : String
  type : String
  instrumentId : String
deriving DecidableEq, Repr

/-- Column specs passed to `printTable` by `listVendors`. -/
def vendorCols : List ColSpec :=
  [{ key := "id", header := "ID", width := 36 },
   { key := "name", header := "Company Name", width := 30 },
   { key := "email", header := "Email", width := 25 },
   { key := "type", header := "Pay Type", width := 20 },
   { key := "instrumentId", header := "Instrument ID", width := 20 }]

/-- The request path built by `listVendors`. -/
def listVendorsPath (o : ListOptions) : String :=
  let params := optParamInt "limit" o.limit ++ optParamStr "cursor" o.cursor ++
    optParamStr "name" o.name
  let query := urlSearchParamsToString params
  if query = "" then "/v1/vendors" else "/v1/vendors?" ++ query

/-- `listVendors`. -/
def listVendors (fetchList : String → FetchR ListVendorsResponse)
    (options : ListOptions) (format : OutputFormat) :
    Except CliErr (List (OutEv (Envelope Vendor) VendorRow)) × List HttpReq :=
  let path := listVendorsPath options
  match fetchList path with
  | .error e => (.error e, [getReq path])
  | .ok response =>
    let vendors := response.items.getD []
    if format = .json then
      (.ok [.json ⟨vendors, response.next_cursor⟩], [getReq path])
    else if vendors.length = 0 then
      (.ok [.line "No vendors found."], [getReq path])
    else
      let tableEv : OutEv (Envelope Vendor) VendorRow :=
        .table (vendors.map fun vendor =>
          let account := ((vendor.payment_accounts.getD []).head?).map PaymentAccount.details
          { id := vendor.id,
            name := truncate (vendor.company_name.getD "-") 30,
            email := truncate (vendor.email.getD "-") 25,
            type := (account.map PaymentAccountDetails.type).getD "-",
            instrumentId := truncate
              (((account.map PaymentAccountDetails.payment_instrument_id).getD none).getD "-") 20 })
          vendorCols
      let tail := match truthyStr response.next_cursor with
        | some cur => [OutEv.line (s!"\nMore results available. Run with: --cursor {cur}")]
        | none => []
      (.ok ([tableEv] ++ tail), [getReq path])

end Brex.Vendors

namespace Brex.TransferA

/-- `Transfer` of the transfer command (numeric cent amounts). -/
structure TransferAmount where
  amount : Int
  currency : Option String := none
deriving DecidableEq, Repr

/-- `originating_account` sub-object. -/
structure OriginatingAccount where
  type : String
  id : String
deriving DecidableEq, Repr

/-- `counterparty` sub-object. -/
structure Counterparty where
  type : String
  id : Option String := none
  payment_instrument_id : Option String := none
  description : Option String := none
  routing_number : Option String := none
  account_number : Option String := none
  external_memo : Option String := none
  deposit_account_id : Option String := none
deriving DecidableEq, Repr

/-- `Transfer`. -/
structure Transfer where
  id : String
  amount : TransferAmount
  status : String
  payment_type : String
  originating_account : OriginatingAccount
  counterparty : Option Counterparty := none
  description : Option String := none
  display_name : Option String := none
  external_memo : Option String := none
  process_date : Option String := none
  estimated_delivery_date : Option String := none
  created_at : Option String := none
  creator_user_id : Option String := none
  cancellation_reason : Option String := none
  idempotency_key : Option String := none
  is_ppro_enabled : Option Bool := none
deriving DecidableEq, Repr

/-- `ListTransfersResponse` (`items` may still be missing at runtime). -/
structure ListTransfersResponse where
  items : Option (List Transfer) := none
  next_cursor : Option String := none
deriving DecidableEq, Repr

/-- `ListTransferOptions`. -/
structure ListTransferOptions where
  cursor : Option String := none
  limit : Option Int := none
deriving DecidableEq, Repr

/-- A rendered table row of the transfer listing. -/
structure TransferRow where
  id : String
  direction : String
  name : String
  amount : String
  status : String
  type : String
  date : String
deriving DecidableEq, Repr

/-- Column specs passed to `printTable` by `listTransfers`. -/
def transferCols : List ColSpec :=
  [{ key := "id", header := "Transfer ID", width := 36 },
   { key := "direction", header := "Dir", width := 4 },
   { key := "name", header := "Name", width := 20 },
   { key := "amount", header := "Amount", width := 14 },
   { key := "status", header := "Status", width := 18 },
   { key := "type", header := "Type", width := 18 },
   { key := "date", header := "Date", width := 12 }]

/-- The request path built by `listTransfers`. -/
def listTransfersPath (o : ListTransferOptions) : String :=
  let params := optParamStr "cursor" o.cursor ++ optParamInt "limit" o.limit
  let query := urlSearchParamsToString params
  if query = "" then "/v1/transfers" else "/v1/transfers?" ++ query

/-- `listTransfers` of the transfer command. -/
def listTransfers (fetchList : String → FetchR ListTransfersResponse)
    (options : ListTransferOptions) (format : OutputFormat) :
    Except CliErr (List (OutEv (Envelope Transfer) TransferRow)) × List HttpReq :=
  let path := listTransfersPath options
  match fetchList path with
  | .error e => (.error e, [getReq path])
  | .ok response =>
    let transfers := response.items.getD []
    if format = .json then
      (.ok [.json ⟨transfers, response.next_cursor⟩], [getReq path])
    else if transfers.length = 0 then
      (.ok [.line "No transfers found."], [getReq path])
    else
      let tableEv : OutEv (Envelope Transfer) TransferRow :=
        .table (transfers.map fun transfer =>
          let cents := transfer.amount.amount
          let isIncoming := cents < 0
          { id := transfer.id,
            direction := if isIncoming then "IN" else "OUT",
            name := truncate
              ((nc transfer.display_name
                 ((transfer.counterparty.map Counterparty.description).getD none)).getD "-") 20,
            amount := formatAmount (.int |cents|) transfer.amount.currency,
            status := transfer.status,
            type := transfer.payment_type,
            date := formatDate (nc transfer.process_date transfer.created_at) }) transferCols
      let tail := match truthyStr response.next_cursor with
        | some cur => [OutEv.line (s!"\nMore results available. Run with: --cursor {cur}")]
        | none => []
      (.ok ([tableEv] ++ tail), [getReq path])

end Brex.TransferA

namespace Brex.TransferB

/-- `TransferAmount` of the second transfer module (decimal-string amounts). -/
structure TransferAmount where
  amount : String
  currency : String
deriving DecidableEq, Repr

/-- `from_account.cash_account` chain. -/
structure FromAccount where
  cash_account_id : Option String := none
deriving DecidableEq, Repr

/-- `recipient.payment_counterparty` chain. -/
structure Recipient where
  payment_counterparty_id : Option String := none
deriving DecidableEq, Repr

/-- `Transfer` of the second transfer module. -/
structure Transfer where
  id : String
  amount : Option TransferAmount := none
  status : Option String := none
  created_at : Option String := none
  idempotency_key : Option String := none
  from_account : Option FromAccount := none
  recipient : Option Recipient := none
deriving DecidableEq, Repr

/-- `ListTransfersResponse`. -/
structure ListTransfersResponse where
  items : Option (List Transfer) := none
  transfers : Option (List Transfer) := none
  next_cursor : Option String := none
deriving DecidableEq, Repr

/-- `ListTransferOptions` of the second transfer module. -/
structure ListTransferOptions where
  cursor : Option String := none
  limit : Option Int := none
  status : Option String := none
  fromAccountId : Option String := none
  toCounterpartyId : Option String := none
deriving DecidableEq, Repr

/-- A rendered table row of the second transfer listing. -/
structure TransferRow where
  id : String
  fromAcct : String
  toAcct : String
  amount : String
  status : String
deriving DecidableEq, Repr

/-- Column specs passed to `printTable` by the second `listTransfers`. -/
def transferCols : List ColSpec :=
  [{ key := "id", header := "Transfer ID", width := 36 },
   { key := "from", header := "From Account", width := 36 },
   { key := "to", header := "To Counterparty", width := 36 },
   { key := "amount", header := "Amount", width := 14 },
   { key := "status", header := "Status", width := 14 }]

/-- The request path built by the second `listTransfers`. -/
def listTransfersPath (o : ListTransferOptions) : String :=
  let params := optParamStr "cursor" o.cursor ++ optParamInt "limit" o.limit ++
    optParamStr "status" o.status ++ optParamStr "from_account_id" o.fromAccountId ++
    optParamStr "to_counterparty_id" o.toCounterpartyId
  let query := urlSearchParamsToString params
  if query = "" then "/v1/transfers" else "/v1/transfers?" ++ query

/-- `listTransfers` of the second transfer module. -/
def listTransfers (fetchList : String → FetchR ListTransfersResponse)
    (options : ListTransferOptions) (format : OutputFormat) :
    Except CliErr (List (OutEv (Envelope Transfer) TransferRow)) × List HttpReq :=
  let path := listTransfersPath options
  match fetchList path with
  | .error e => (.error e, [getReq path])
  | .ok response =>
    let transfers := (nc response.items response.transfers).getD []
    if format = .json then
      (.ok [.json ⟨transfers, response.next_cursor⟩], [getReq path])
    else if transfers.length = 0 then
      (.ok [.line "No transfers found."], [getReq path])
    else
      let tableEv : OutEv (Envelope Transfer) TransferRow :=
        .table (transfers.map fun transfer =>
          { id := transfer.id,
            fromAcct := ((transfer.from_account.map FromAccount.cash_account_id).getD none).getD "-",
            toAcct := ((transfer.recipient.map Recipient.payment_counterparty_id).getD none).getD "-",
            amount := match transfer.amount with
              | some a => formatAmount (.str a.amount) (some a.currency)
              | none => "-",
            status := transfer.status.getD "-" }) transferCols
      let tail := match truthyStr response.next_cursor with
        | some cur => [OutEv.line (s!"\nNext cursor: {cur}")]
        | none => []
      (.ok ([tableEv] ++ tail), [getReq path])

end Brex.TransferB

namespace Brex

/-- A positive decimal integer literal: one or more ASCII digits denoting a
positive value (the specification's "positive integer" domain for `--limit`,
written from the spec for comparison with the scanner's actual behavior). -/
def isPositiveIntegerLiteral (s : String) : Bool :=
  ¬ s.data.isEmpty ∧ s.data.all Char.isDigit ∧ digitsToNat s.data > 0

end Brex

namespace Brex.Accounts

/-- Extraction rule as described by the amended claim: the value of the
first candidate key that holds a defined item collection (even an empty
one); `[]` when no candidate key holds one. -/
def firstDefinedExtraction {α : Type} (r : AccountsPage α) (keys : List AccountsKey) : List α :=
  match keys.find? (fun k => (r.getKey k).isSome) with
  | some k => (r.getKey k).getD []
  | none => []

/-- Extraction rule as literally described by the original claim: the value
of the first candidate key that holds a non-empty item collection (written
from the spec for comparison with `extractItems`). -/
def firstNonEmptyExtraction {α : Type} (r : AccountsPage α) (keys : List AccountsKey) : List α :=
  match keys.find? (fun k => ¬ ((r.getKey k).getD []).isEmpty) with
  | some k => (r.getKey k).getD []
  | none => []

/-- Witness oracle: every fetch fails locally. -/
def stubOracle : AccountsOracle where
  cashList := fun _ => .error (.plain "offline")
  cardList := fun _ => .error (.plain "offline")
  cashGet := fun _ => .error (.plain "offline")
  cardGet := fun _ => .error (.plain "offline")

/-- Witness oracle: three cash accounts and two card accounts. -/
def mergeOracle : AccountsOracle :=
  { stubOracle with
    cashList := fun _ => .ok { items := some [{ id := "c1" }, { id := "c2" }, { id := "c3" }] },
    cardList := fun _ => .ok { items := some [{ id := "d1" }, { id := "d2" }] } }

/-- Witness oracle: the cash account endpoint answers 404, the card account
endpoint succeeds. -/
def fallbackOracle : AccountsOracle :=
  { stubOracle with
    cashGet := fun _ => .error (.api (Client.mkBrexApiError 404
      { error := some "not_found", message := none, details := none })),
    cardGet := fun _ => .ok { id := "card-acct" } }

/-- Witness oracle: the cash listing returns no items but carries a cursor. -/
def emptyCashWithCursorOracle : AccountsOracle :=
  { stubOracle with
    cashList := fun _ => .ok { items := some ([] : List CashAccount), next_cursor := some "ZZZ" } }

end Brex.Accounts

namespace Brex.Webhooks

/-- Witness oracle: every fetch fails locally. -/
def stubOracle : WebhooksOracle where
  list := fun _ => .error (.plain "offline")
  get := fun _ => .error (.plain "offline")
  create := fun _ => .error (.plain "offline")
  update := fun _ => .error (.plain "offline")
  delete := fun _ => .error (.plain "offline")

/-- Witness oracle: the webhook listing returns a defined, empty item set. -/
def emptyListOracle : WebhooksOracle :=
  { stubOracle with
    list := fun _ => .ok { items := some [], webhooks := none, next_cursor := none } }

end Brex.Webhooks

namespace Brex.Events

/-- A sample event for witnesses. -/
def sampleEvent : ApiEvent :=
  { id := "evt-1", event_type := some "transfer.created", occurred_at := none,
    webhook_id := none, payload := none }

/-- A sample list response for witnesses. -/
def sampleResponse : ListEventsResponse :=
  { items := some [sampleEvent], events := none, next_cursor := some "next-1" }

end Brex.Events

namespace Brex

theorem char_toNat_lt (c : Char) : c.toNat < 1114112 := by
  have hv := c.valid
  have he : c.toNat = c.val.toNat := rfl
  rcases hv with h | h
  · rw [he]; omega
  · rw [he]; omega

theorem utf8Bytes_lt (c : Char) : ∀ b ∈ utf8Bytes c, b < 256 := by
  intro b hb
  have hc := char_toNat_lt c
  unfold utf8Bytes at hb
  split at hb
  · simp at hb; omega
  · split at hb
    · simp at hb; omega
    · split at hb
      · simp at hb; rcases hb with h | h | h <;> omega
      · simp at hb; rcases hb with h | h | h | h <;> omega

theorem utf8Bytes_ascii (c : Char) (hc : c.toNat < 128) : utf8Bytes c = [c.toNat] := by
  unfold utf8Bytes
  rw [if_pos hc]

theorem hexVal_hexDigitChar : ∀ d, d < 16 → hexVal (hexDigitChar d) = some d := by decide

theorem percentDecodeL_encChar (safe : Char → Bool) (sp : Bool) (c : Char)
    (hc : c.toNat < 128) (hpct : safe '%' = false)
    (hplus : sp = true → safe '+' = false) (rest : List Char) :
    percentDecodeL sp (encChar safe sp c ++ rest) =
      (percentDecodeL sp rest).map (fun r => c :: r) := by
  unfold encChar
  by_cases hsp : sp = true ∧ c = ' '
  · rw [if_pos hsp]
    rcases hsp with ⟨hsp1, hsp2⟩
    rw [List.cons_append, List.nil_append, percentDecodeL.eq_def]
    simp [hsp1, hsp2]
  · rw [if_neg hsp]
    by_cases hsafe : safe c
    · rw [if_pos hsafe]
      have hnp : ¬ c = '%' := by
        intro h; rw [h] at hsafe; rw [hpct] at hsafe; exact Bool.noConfusion hsafe
      have hnplus : ¬ (sp = true ∧ c = '+') := by
        intro ⟨h1, h2⟩
        rw [h2] at hsafe
        rw [hplus h1] at hsafe
        exact Bool.noConfusion hsafe
      rw [List.cons_append, List.nil_append, percentDecodeL.eq_def]
      simp [hnp, hnplus]
    · rw [if_neg hsafe]
      rw [utf8Bytes_ascii c hc]
      have h1 : hexVal (hexDigitChar (c.toNat / 16)) = some (c.toNat / 16) :=
        hexVal_hexDigitChar _ (by omega)
      have h2 : hexVal (hexDigitChar (c.toNat % 16)) = some (c.toNat % 16) :=
        hexVal_hexDigitChar _ (Nat.mod_lt _ (by omega))
      simp only [List.flatMap_cons, List.flatMap_nil, List.append_nil, percentEncodeByte,
        List.cons_append, List.nil_append]
      rw [percentDecodeL.eq_def]
      simp only [if_pos, h1, h2]
      simp only [Nat.div_add_mod, Char.ofNat_toNat]

theorem percentDecodeL_encodeL (safe : Char → Bool) (sp : Bool)
    (hpct : safe '%' = false) (hplus : sp = true → safe '+' = false)
    (s : List Char) (hs : ∀ c ∈ s, c.toNat < 128) :
    percentDecodeL sp (encodeL safe sp s) = some s := by
  induction s with
  | nil => rfl
  | cons c cs ih =>
    have hc : c.toNat < 128 := hs c (List.mem_cons_self _ _)
    have hcs : ∀ x ∈ cs, x.toNat < 128 := fun x hx => hs x (List.mem_cons_of_mem _ hx)
    unfold encodeL
    rw [List.flatMap_cons]
    rw [percentDecodeL_encChar safe sp c hc hpct hplus]
    rw [show cs.flatMap (encChar safe sp) = encodeL safe sp cs from rfl]
    rw [ih hcs]
    rfl

theorem sep_not_mem_encChar (safe : Char → Bool) (sp : Bool) (sep c : Char)
    (hsafe : safe sep = false) (hplus : sep ≠ '+') (hpct : sep ≠ '%')
    (hhex : ∀ d, d < 16 → hexDigitChar d ≠ sep) :
    sep ∉ encChar safe sp c := by
  intro hmem
  unfold encChar at hmem
  split at hmem
  · simp at hmem; exact hplus hmem
  · split at hmem
    · simp at hmem
      subst hmem
      simp_all
    · rw [List.mem_flatMap] at hmem
      rcases hmem with ⟨b, hb, hmemb⟩
      have hblt := utf8Bytes_lt c b hb
      unfold percentEncodeByte at hmemb
      simp at hmemb
      rcases hmemb with h | h | h
      · exact hpct h
      · exact hhex _ (by omega) h.symm
      · exact hhex _ (Nat.mod_lt _ (by omega)) h.symm

theorem sep_not_mem_encodeL (safe : Char → Bool) (sp : Bool) (sep : Char)
    (hsafe : safe sep = false) (hplus : sep ≠ '+') (hpct : sep ≠ '%')
    (hhex : ∀ d, d < 16 → hexDigitChar d ≠ sep) (s : List Char) :
    sep ∉ encodeL safe sp s := by
  intro hmem
  rw [encodeL, List.mem_flatMap] at hmem
  rcases hmem with ⟨c, _, hc⟩
  exact sep_not_mem_encChar safe sp sep c hsafe hplus hpct hhex hc

end Brex

namespace Brex

theorem dropWhile_append_all (p : Char → Bool) (a : List Char) (c : Char) (b : List Char)
    (ha : ∀ x ∈ a, p x = true) (hc : p c = false) :
    List.dropWhile p (a ++ c :: b) = c :: b := by
  induction a with
  | nil => simp [List.dropWhile, hc]
  | cons x xs ih =>
    rw [List.cons_append, List.dropWhile_cons]
    rw [ha x (List.mem_cons_self _ _)]
    simp only [if_true]
    exact ih (fun y hy => ha y (List.mem_cons_of_mem _ hy))

theorem takeWhile_append_all (p : Char → Bool) (a : List Char) (c : Char) (b : List Char)
    (ha : ∀ x ∈ a, p x = true) (hc : p c = false) :
    List.takeWhile p (a ++ c :: b) = a := by
  induction a with
  | nil => simp [List.takeWhile, hc]
  | cons x xs ih =>
    rw [List.cons_append, List.takeWhile_cons]
    rw [ha x (List.mem_cons_self _ _)]
    simp only [if_true]
    rw [ih (fun y hy => ha y (List.mem_cons_of_mem _ hy))]

theorem splitOnCharL_cons (sep c : Char) (rest : List Char) :
    splitOnCharL sep (c :: rest) =
      match splitOnCharL sep rest with
      | [] => [[c]]
      | g :: gs => if c = sep then [] :: g :: gs else (c :: g) :: gs := by
  rw [splitOnCharL.eq_def]

theorem splitOnCharL_ne_nil (sep : Char) (l : List Char) : splitOnCharL sep l ≠ [] := by
  cases l with
  | nil => simp [splitOnCharL]
  | cons c rest =>
    rw [splitOnCharL_cons]
    cases h : splitOnCharL sep rest with
    | nil => simp
    | cons g gs =>
      by_cases hc : c = sep <;> simp [hc]

theorem splitOnCharL_not_mem (sep : Char) (l : List Char) (h : sep ∉ l) :
    splitOnCharL sep l = [l] := by
  induction l with
  | nil => rfl
  | cons c rest ih =>
    simp only [List.mem_cons, not_or] at h
    rw [splitOnCharL_cons, ih h.2]
    have hcs : ¬ c = sep := fun hh => h.1 hh.symm
    simp [hcs]

theorem splitOnCharL_append (sep : Char) (a b : List Char) (h : sep ∉ a) :
    splitOnCharL sep (a ++ sep :: b) = a :: splitOnCharL sep b := by
  induction a with
  | nil =>
    rw [List.nil_append, splitOnCharL_cons]
    cases hb : splitOnCharL sep b with
    | nil => exact absurd hb (splitOnCharL_ne_nil sep b)
    | cons g gs => simp
  | cons x xs ih =>
    simp only [List.mem_cons, not_or] at h
    rw [List.cons_append, splitOnCharL_cons, ih h.2]
    have hxs : ¬ x = sep := fun hh => h.1 hh.symm
    simp [hxs]

theorem joinAmp_single (x : String) : joinAmp [x] = x := rfl

theorem joinAmp_cons (x y : String) (xs : List String) :
    (joinAmp (x :: y :: xs)).data = x.data ++ '&' :: (joinAmp (y :: xs)).data := by
  show (x ++ "&" ++ joinAmp (y :: xs)).data = _
  show x.data ++ '&' :: [] ++ (joinAmp (y :: xs)).data = _
  simp

theorem splitOnCharL_joinAmp (xs : List String) (h : ∀ x ∈ xs, '&' ∉ x.data)
    (hne : xs ≠ []) :
    splitOnCharL '&' (joinAmp xs).data = xs.map String.data := by
  induction xs with
  | nil => exact absurd rfl hne
  | cons x rest ih =>
    cases rest with
    | nil =>
      rw [joinAmp_single]
      rw [splitOnCharL_not_mem '&' x.data (h x (List.mem_cons_self _ _))]
      rfl
    | cons y ys =>
      rw [joinAmp_cons]
      rw [splitOnCharL_append '&' x.data _ (h x (List.mem_cons_self _ _))]
      rw [ih (fun z hz => h z (List.mem_cons_of_mem _ hz)) (by simp)]
      rfl

theorem queryStringOf_append (p q : List Char) (hp : '?' ∉ p) :
    queryStringOf (p ++ '?' :: q) = q := by
  unfold queryStringOf
  rw [dropWhile_append_all _ p '?' q
    (fun x hx => by simp; intro hh; exact hp (hh ▸ hx)) (by simp)]
  rfl

theorem kvOf_append (k v : List Char) (hk : '=' ∉ k) : kvOf (k ++ '=' :: v) = (k, v) := by
  unfold kvOf
  rw [takeWhile_append_all _ k '=' v
    (fun x hx => by simp; intro hh; exact hk (hh ▸ hx)) (by simp)]
  rw [dropWhile_append_all _ k '=' v
    (fun x hx => by simp; intro hh; exact hk (hh ▸ hx)) (by simp)]
  rfl

end Brex

namespace Brex

theorem amp_not_mem_form (s : List Char) : '&' ∉ encodeL isFormSafe true s := by
  exact sep_not_mem_encodeL _ _ _ (by decide) (by decide) (by decide) (by decide) s

theorem eq_not_mem_form (s : List Char) : '=' ∉ encodeL isFormSafe true s := by
  exact sep_not_mem_encodeL _ _ _ (by decide) (by decide) (by decide) (by decide) s

theorem amp_not_mem_uri (s : List Char) : '&' ∉ encodeL isUriComponentSafe false s := by
  exact sep_not_mem_encodeL _ _ _ (by decide) (by decide) (by decide) (by decide) s

/-- The query-parameter observation reads back the exact cursor appended by
`withCursor` (statements version). -/
theorem queryParam_withCursor_statements (path cursor : String)
    (hq : '?' ∉ path.data) (hc : cursor ≠ "")
    (ha : ∀ c ∈ cursor.data, c.toNat < 128) :
    queryParamValueL false (Statements.withCursor path (some cursor)).data "cursor".data
      = some cursor.data := by
  have h1 : Statements.withCursor path (some cursor) =
      path ++ "?cursor=" ++ encodeURIComponent cursor := by
    unfold Statements.withCursor truthyStr
    simp [hc]
  have henc : (Statements.withCursor path (some cursor)).data
      = path.data ++ '?' :: ("cursor".data ++ '=' :: encodeL isUriComponentSafe false cursor.data) := by
    rw [h1]
    show path.data ++ "?cursor=".data ++ (encodeURIComponent cursor).data = _
    rw [show (encodeURIComponent cursor).data = encodeL isUriComponentSafe false cursor.data from rfl]
    simp
  unfold queryParamValueL
  rw [henc, queryStringOf_append _ _ hq]
  have hnomem : '&' ∉ "cursor".data ++ '=' :: encodeL isUriComponentSafe false cursor.data := by
    intro hmem
    rw [List.mem_append] at hmem
    rcases hmem with h | h
    · revert h; decide
    · rw [List.mem_cons] at h
      rcases h with h | h
      · exact absurd h (by decide)
      · exact amp_not_mem_uri _ h
  rw [splitOnCharL_not_mem _ _ hnomem]
  rw [List.map_cons, List.map_nil]
  rw [kvOf_append _ _ (by decide)]
  have hfind : List.find? (fun kv => kv.1 = "cursor".data)
      [(("cursor".data : List Char), encodeL isUriComponentSafe false cursor.data)]
      = some ("cursor".data, encodeL isUriComponentSafe false cursor.data) := by
    simp [List.find?]
  rw [hfind]
  exact percentDecodeL_encodeL _ _ (by decide) (by decide) _ ha

end Brex

namespace Brex

/-- Data of one serialized `k=v` piece. -/
theorem piece_data (k v : String) :
    (formEncode k ++ "=" ++ formEncode v).data
      = encodeL isFormSafe true k.data ++ '=' :: encodeL isFormSafe true v.data := by
  show (formEncode k).data ++ "=".data ++ (formEncode v).data = _
  rw [show (formEncode k).data = encodeL isFormSafe true k.data from rfl,
      show (formEncode v).data = encodeL isFormSafe true v.data from rfl]
  simp

theorem amp_not_mem_piece (k v : String) :
    '&' ∉ (formEncode k ++ "=" ++ formEncode v).data := by
  rw [piece_data]
  intro hmem
  rw [List.mem_append] at hmem
  rcases hmem with h | h
  · exact amp_not_mem_form _ h
  · rw [List.mem_cons] at h
    rcases h with h | h
    · exact absurd h (by decide)
    · exact amp_not_mem_form _ h

theorem kv_of_pieces (l : List (String × String)) :
    List.map kvOf
      ((l.map fun p => formEncode p.1 ++ "=" ++ formEncode p.2).map String.data)
      = l.map (fun p => (encodeL isFormSafe true p.1.data, encodeL isFormSafe true p.2.data)) := by
  induction l with
  | nil => rfl
  | cons p ps ih =>
    simp only [List.map_cons]
    rw [ih]
    rw [piece_data, kvOf_append _ _ (eq_not_mem_form _)]

/-- Reading back a query parameter from a URL built with
`urlSearchParamsToString`: the first pair whose encoded key equals the
(encoding-invariant) key `k` decodes to its exact original value. -/
theorem queryParam_urlSearchParams (base k v : String)
    (pre post : List (String × String))
    (hbase : '?' ∉ base.data)
    (hkenc : encodeL isFormSafe true k.data = k.data)
    (hpre : ∀ p ∈ pre, encodeL isFormSafe true p.1.data ≠ k.data)
    (hv : ∀ c ∈ v.data, c.toNat < 128) :
    queryParamValueL true
      (base ++ "?" ++ urlSearchParamsToString (pre ++ (k, v) :: post)).data k.data
      = some v.data := by
  have hurl : (base ++ "?" ++ urlSearchParamsToString (pre ++ (k, v) :: post)).data
      = base.data ++ '?' :: (urlSearchParamsToString (pre ++ (k, v) :: post)).data := by
    show base.data ++ "?".data ++ (urlSearchParamsToString (pre ++ (k, v) :: post)).data
        = base.data ++ '?' :: (urlSearchParamsToString (pre ++ (k, v) :: post)).data
    simp
  unfold queryParamValueL
  rw [hurl, queryStringOf_append _ _ hbase]
  have hsplit : splitOnCharL '&' (urlSearchParamsToString (pre ++ (k, v) :: post)).data
      = ((pre ++ (k, v) :: post).map fun p => formEncode p.1 ++ "=" ++ formEncode p.2).map
          String.data := by
    unfold urlSearchParamsToString
    exact splitOnCharL_joinAmp
      ((pre ++ (k, v) :: post).map fun p => formEncode p.1 ++ "=" ++ formEncode p.2)
      (by
        intro x hx
        rw [List.mem_map] at hx
        rcases hx with ⟨p, _, hp⟩
        rw [← hp]
        exact amp_not_mem_piece p.1 p.2)
      (by simp)
  rw [hsplit, kv_of_pieces]
  rw [List.map_append, List.map_cons]
  rw [List.find?_append]
  have hfindpre : List.find? (fun kv => kv.1 = k.data)
      (pre.map fun p => (encodeL isFormSafe true p.1.data, encodeL isFormSafe true p.2.data))
      = none := by
    rw [List.find?_eq_none]
    intro x hx
    rw [List.mem_map] at hx
    rcases hx with ⟨p, hp, hpeq⟩
    rw [← hpeq]
    simp only [decide_eq_true_eq]
    exact hpre p hp
  rw [hfindpre]
  rw [Option.none_or]
  rw [hkenc]
  have hfind : List.find? (fun kv => kv.1 = k.data)
      ((k.data, encodeL isFormSafe true v.data) ::
        post.map fun p => (encodeL isFormSafe true p.1.data, encodeL isFormSafe true p.2.data))
      = some (k.data, encodeL isFormSafe true v.data) := by
    rw [List.find?_cons]
    simp
  rw [hfind]
  exact percentDecodeL_encodeL _ _ (by decide) (by decide) _ hv

end Brex

namespace Brex

theorem optParamStr_key (key : String) (v : Option String) :
    ∀ p ∈ optParamStr key v, p.1 = key := by
  intro p hp
  unfold optParamStr at hp
  split at hp
  · simp at hp; rw [hp]
  · cases hp

theorem joinAmp_data_ne_nil (xs : List String) (hx : ∃ x ∈ xs, x.data ≠ []) :
    (joinAmp xs).data ≠ [] := by
  induction xs with
  | nil => rcases hx with ⟨x, hmem, _⟩; cases hmem
  | cons x rest ih =>
    cases rest with
    | nil =>
      rcases hx with ⟨y, hy, hne⟩
      rw [List.mem_singleton] at hy
      subst hy
      rw [joinAmp_single]
      exact hne
    | cons z zs =>
      rw [joinAmp_cons]
      intro h
      rcases List.append_eq_nil.mp h with ⟨_, h2⟩
      cases h2

theorem cursor_piece_ne_nil (k v : String) :
    (formEncode k ++ "=" ++ formEncode v).data ≠ [] := by
  rw [piece_data]
  intro h
  rcases List.append_eq_nil.mp h with ⟨_, h2⟩
  cases h2

/-- With a truthy cursor option, the events list path carries the cursor as
a readable query parameter whose decoded value is the exact cursor. -/
theorem queryParam_listEventsPath (o : Events.ListOptions) (cursor : String)
    (hco : o.cursor = some cursor) (hc : cursor ≠ "")
    (ha : ∀ c ∈ cursor.data, c.toNat < 128) :
    queryParamValueL true (Events.listEventsPath o).data "cursor".data = some cursor.data := by
  have hcursorparam : optParamStr "cursor" o.cursor = [("cursor", cursor)] := by
    rw [hco]
    unfold optParamStr truthyStr
    simp [hc]
  have hassoc : optParamStr "event_type" o.eventType ++ optParamStr "after_date" o.afterDate ++
      optParamStr "before_date" o.beforeDate ++ [("cursor", cursor)] ++ optParamInt "limit" o.limit
      = (optParamStr "event_type" o.eventType ++ optParamStr "after_date" o.afterDate ++
          optParamStr "before_date" o.beforeDate) ++ ("cursor", cursor) :: optParamInt "limit" o.limit := by
    simp [List.append_assoc]
  have hqne : urlSearchParamsToString
      ((optParamStr "event_type" o.eventType ++ optParamStr "after_date" o.afterDate ++
        optParamStr "before_date" o.beforeDate) ++ ("cursor", cursor) :: optParamInt "limit" o.limit)
      ≠ "" := by
    intro h
    have hdata := congrArg String.data h
    unfold urlSearchParamsToString at hdata
    refine joinAmp_data_ne_nil _ ?_ hdata
    refine ⟨formEncode "cursor" ++ "=" ++ formEncode cursor, ?_, cursor_piece_ne_nil _ _⟩
    rw [List.mem_map]
    exact ⟨("cursor", cursor), by simp, rfl⟩
  have hlit : ("/v1/events?" : String) = "/v1/events" ++ "?" := by decide
  have hppath : Events.listEventsPath o
      = "/v1/events" ++ "?" ++ urlSearchParamsToString
          ((optParamStr "event_type" o.eventType ++ optParamStr "after_date" o.afterDate ++
            optParamStr "before_date" o.beforeDate) ++
            ("cursor", cursor) :: optParamInt "limit" o.limit) := by
    unfold Events.listEventsPath
    rw [hcursorparam, hassoc]
    rw [if_neg hqne]
    rw [hlit]
  rw [hppath]
  refine queryParam_urlSearchParams "/v1/events" "cursor" cursor _ _ (by decide) (by decide) ?_ ha
  intro p hp
  rw [List.mem_append] at hp
  rcases hp with hp | hp
  · rw [List.mem_append] at hp
    rcases hp with hp | hp
    · rw [optParamStr_key _ _ p hp]; decide
    · rw [optParamStr_key _ _ p hp]; decide
  · rw [optParamStr_key _ _ p hp]; decide

end Brex
namespace Brex

/-- C3: for every non-2xx HTTP response whose body fails to parse as an
`ApiError` object, the client throws a `BrexApiError` whose status equals
the response status and whose synthesized body has `error` exactly
`HTTP <status>` (with the status text as the message). -/
theorem c3_unparseable_body_synthesizes_api_error (r : Client.HttpResponse)
    (hok : r.ok = false)
    (hbody : ∀ b, r.errorBody ≠ .objectJson b) :
    Client.handleResponse r
      = .error (Client.mkBrexApiError r.status
          { error := some ("HTTP " ++ toString r.status), message := some r.statusText,
            details := none })
    ∧ (Client.mkBrexApiError r.status
        { error := some ("HTTP " ++ toString r.status), message := some r.statusText,
          details := none }).status = r.status
    ∧ (Client.mkBrexApiError r.status
        { error := some ("HTTP " ++ toString r.status), message := some r.statusText,
          details := none }).body.error = some ("HTTP " ++ toString r.status) := by
  refine ⟨?_, rfl, rfl⟩
  unfold Client.handleResponse
  rw [if_neg (by rw [hok]; simp)]
  cases h : r.errorBody with
  | unparseable => simp [h]
  | nonObjectJson => simp [h]
  | objectJson b => exact absurd h (hbody b)

/-- C3 witness: a 500 response with an unparseable body at concrete input. -/
theorem c3_witness :
    Client.handleResponse
      { status := 500, statusText := "Internal Server Error",
        errorBody := .unparseable, text := "" }
      = .error (Client.mkBrexApiError 500
          { error := some ("HTTP " ++ toString 500), message := some "Internal Server Error",
            details := none }) :=
  (c3_unparseable_body_synthesizes_api_error
    { status := 500, statusText := "Internal Server Error",
      errorBody := .unparseable, text := "" }
    (by decide) (fun b h => by cases h)).1

/-- C6 counterexample: with candidate keys `items, cash_accounts, accounts`,
a response whose `items` is a defined empty array and whose `cash_accounts`
is non-empty yields the empty array from `extractItems`, not the later
key's items as the claim (first non-empty wins) requires. -/
theorem c6_counterexample :
    Accounts.extractItems
      ({ items := some [], cash_accounts := some [7] } : Accounts.AccountsPage Nat)
      [.items, .cash_accounts, .accounts] = []
    ∧ Accounts.firstNonEmptyExtraction
      ({ items := some [], cash_accounts := some [7] } : Accounts.AccountsPage Nat)
      [.items, .cash_accounts, .accounts] = [7]
    ∧ ([] : List Nat) ≠ [7] :=
  ⟨rfl, rfl, by decide⟩

/-- C6 amended: `extractItems` returns the value of the first candidate key
that holds a defined item collection — even an empty one — first-defined
wins, not first non-empty; `[]` when no candidate key holds a collection. -/
theorem c6_first_defined_key {α : Type} (r : Accounts.AccountsPage α)
    (keys : List Accounts.AccountsKey) :
    Accounts.extractItems r keys = Accounts.firstDefinedExtraction r keys := by
  induction keys with
  | nil => rfl
  | cons k ks ih =>
    unfold Accounts.extractItems Accounts.firstDefinedExtraction
    cases h : r.getKey k with
    | some v =>
      rw [List.find?_cons]
      simp [h]
    | none =>
      rw [List.find?_cons]
      simp only [h, Option.isSome_none]
      rw [ih]
      rfl

/-- C7 counterexample: two argument sequences that differ only in their
positional token produce identical scanner results, and the result type
carries no positional tokens at all — positionals are silently discarded,
not exposed to the handler. -/
theorem c7_counterexample :
    Webhooks.parseListOptions ["alpha"] = .ok { cursor := none, limit := none }
    ∧ Webhooks.parseListOptions ["beta"] = .ok { cursor := none, limit := none }
    ∧ ("alpha" : String) ≠ "beta" :=
  ⟨rfl, rfl, by decide⟩

/-- C7 amended: the list-option scanners skip positional (non-flag) tokens
with no effect on the scan result; positional arguments are instead read by
position in the command dispatcher before scanning. -/
theorem c7_positionals_ignored (t : String) (args : List String)
    (ht : t ≠ "") (hd : startsWithDash t = false) :
    (∀ o, Webhooks.parseListOptionsLoop (t :: args) o = Webhooks.parseListOptionsLoop args o)
    ∧ (∀ o, Events.parseListOptionsLoop (t :: args) o = Events.parseListOptionsLoop args o)
    ∧ Webhooks.parseListOptions (t :: args) = Webhooks.parseListOptions args
    ∧ Events.parseListOptions (t :: args) = Events.parseListOptions args := by
  have hne : ∀ (s : String), startsWithDash s = true → t ≠ s := by
    intro s hs h
    rw [h] at hd
    rw [hd] at hs
    exact Bool.noConfusion hs
  have hw : ∀ o, Webhooks.parseListOptionsLoop (t :: args) o = Webhooks.parseListOptionsLoop args o := by
    intro o
    rw [Webhooks.parseListOptionsLoop.eq_def]
    simp only []
    rw [if_neg ht, if_neg (hne "--cursor" (by decide)), if_neg (hne "--limit" (by decide)),
        if_neg (by rw [hd]; simp)]
  have he : ∀ o, Events.parseListOptionsLoop (t :: args) o = Events.parseListOptionsLoop args o := by
    intro o
    rw [Events.parseListOptionsLoop.eq_def]
    simp only []
    rw [if_neg ht, if_neg (hne "--event-type" (by decide)), if_neg (hne "--after-date" (by decide)),
        if_neg (hne "--before-date" (by decide)), if_neg (hne "--cursor" (by decide)),
        if_neg (hne "--limit" (by decide)), if_neg (by rw [hd]; simp)]
  exact ⟨hw, he, hw _, he _⟩

/-- C7 witness: prepending the positional token `tx-42` leaves the scan of
`--cursor abc` unchanged. -/
theorem c7_witness :
    Webhooks.parseListOptions ["tx-42", "--cursor", "abc"]
      = Webhooks.parseListOptions ["--cursor", "abc"] :=
  (c7_positionals_ignored "tx-42" ["--cursor", "abc"] (by decide) (by decide)).2.2.1

/-- C8 counterexample: the string `12abc` is not a positive integer literal,
yet the `--limit` flag accepts it (as 12, via `parseInt` prefix parsing)
instead of failing with the must-be-a-positive-integer error. -/
theorem c8_counterexample :
    Events.parseListOptions ["--limit", "12abc"] = .ok { limit := some 12 }
    ∧ isPositiveIntegerLiteral "12abc" = false :=
  ⟨rfl, by decide⟩

/-- C8 amended: enumeration flags validate the consumed value immediately
and fail with an error describing the expected domain; the integer flag
`--limit` fails with the must-be-a-positive-integer error exactly when
JavaScript `parseInt` yields `NaN` or a non-positive value — a value with a
positive integer prefix followed by other characters is accepted, with the
suffix ignored.  The `--account-type` conjunct is scoped to ASCII values,
where the modelled `toUpperCase` agrees with JavaScript's. -/
theorem c8_typed_flag_validation :
    (∀ v : String, v ≠ "" →
      Events.parseListOptions ["--limit", v]
        = match parseIntJS v with
          | some n => if n ≤ 0 then .error "--limit must be a positive integer"
                      else .ok { limit := some n }
          | none => .error "--limit must be a positive integer")
    ∧ (∀ v : String, v ≠ "cash" → v ≠ "card" → v ≠ "all" →
        Accounts.parseListOptions ["--type", v]
          = .error "--type must be one of: cash, card, all")
    ∧ (∀ (freshKey v : String), (∀ c ∈ v.data, c.toNat < 128) →
        toUpperJS v ≠ "CHECKING" → toUpperJS v ≠ "SAVING" →
        Vendors.parseCreateOptions freshKey ["--account-type", v]
          = .error "--account-type must be CHECKING or SAVING") := by
  refine ⟨?_, ?_, ?_⟩
  · intro v hv
    show Events.parseListOptionsLoop ["--limit", v] {} = _
    rw [Events.parseListOptionsLoop.eq_def]
    simp only [String.reduceEq, reduceIte, hv]
    cases hpi : parseIntJS v with
    | none => rfl
    | some n =>
      by_cases hn : n ≤ 0
      · simp [hn]
      · simp [hn, Events.parseListOptionsLoop]
  · intro v h1 h2 h3
    have hloop : Accounts.parseListOptionsLoop ["--type", v] {}
        = .error "--type must be one of: cash, card, all" := by
      rw [Accounts.parseListOptionsLoop.eq_def]
      simp only [String.reduceEq, reduceIte]
      rw [if_neg h1, if_neg h2, if_neg h3]
    unfold Accounts.parseListOptions
    rw [hloop]
  · intro freshKey v _ h1 h2
    have hloop : Vendors.parseCreateOptionsLoop ["--account-type", v] {}
        = .error "--account-type must be CHECKING or SAVING" := by
      rw [Vendors.parseCreateOptionsLoop.eq_def]
      simp only [String.reduceEq, reduceIte]
      rw [if_neg h1, if_neg h2]
    unfold Vendors.parseCreateOptions
    rw [hloop]

/-- C8 witness: the scanner accepts `--limit 7x` as 7 and rejects the
out-of-domain enumeration values `chequing` for `--type` and `checking2`
for `--account-type` at concrete inputs. -/
theorem c8_witness :
    Events.parseListOptions ["--limit", "7x"] = .ok { limit := some 7 }
    ∧ Accounts.parseListOptions ["--type", "chequing"]
        = .error "--type must be one of: cash, card, all"
    ∧ Vendors.parseCreateOptions "K" ["--account-type", "checking2"]
        = .error "--account-type must be CHECKING or SAVING" :=
  ⟨((c8_typed_flag_validation).1 "7x" (by decide)).trans rfl,
   (c8_typed_flag_validation).2.1 "chequing" (by decide) (by decide) (by decide),
   (c8_typed_flag_validation).2.2 "K" "checking2" (by decide) (by decide) (by decide)⟩

end Brex
namespace Brex

/-- C10: `accounts get` without an explicit type fetches the cash endpoint
first and falls back to the card endpoint exactly when the cash fetch fails
with a `BrexApiError` of status 404; any other failure propagates unchanged
with no card request. -/
theorem c10_get_account_404_fallback (oracle : Accounts.AccountsOracle)
    (accountId : String) (format : OutputFormat) :
    (∀ account, oracle.cashGet (s!"/v2/accounts/cash/{accountId}") = .ok account →
      Accounts.getAccount oracle accountId {} format
        = (.ok (Accounts.renderAccount (.cash account) .cash format),
           [getReq (s!"/v2/accounts/cash/{accountId}")]))
    ∧ (∀ e, oracle.cashGet (s!"/v2/accounts/cash/{accountId}") = .error (.api e) →
        e.status = 404 →
        Accounts.getAccount oracle accountId {} format
          = (match oracle.cardGet (s!"/v2/accounts/card/{accountId}") with
             | .ok a => (.ok (Accounts.renderAccount (.card a) .card format),
                 [getReq (s!"/v2/accounts/cash/{accountId}"),
                  getReq (s!"/v2/accounts/card/{accountId}")])
             | .error e2 => (.error e2,
                 [getReq (s!"/v2/accounts/cash/{accountId}"),
                  getReq (s!"/v2/accounts/card/{accountId}")])))
    ∧ (∀ e, oracle.cashGet (s!"/v2/accounts/cash/{accountId}") = .error (.api e) →
        e.status ≠ 404 →
        Accounts.getAccount oracle accountId {} format
          = (.error (.api e), [getReq (s!"/v2/accounts/cash/{accountId}")]))
    ∧ (∀ m, oracle.cashGet (s!"/v2/accounts/cash/{accountId}") = .error (.plain m) →
        Accounts.getAccount oracle accountId {} format
          = (.error (.plain m), [getReq (s!"/v2/accounts/cash/{accountId}")])) := by
  refine ⟨?_, ?_, ?_, ?_⟩
  · intro account hacc
    simp [Accounts.getAccount, hacc]
  · intro e hacc h404
    simp only [Accounts.getAccount, hacc]
    rw [if_neg (by rw [h404]; simp)]
    cases hcard : oracle.cardGet (s!"/v2/accounts/card/{accountId}") <;> simp
  · intro e hacc h404
    simp only [Accounts.getAccount, hacc]
    rw [if_pos h404]
  · intro m hacc
    simp [Accounts.getAccount, hacc]

/-- C10 witness: a 404 cash failure at concrete input triggers exactly one
card request that renders the card account. -/
theorem c10_witness :
    Accounts.getAccount Accounts.fallbackOracle "A1" {} .json
      = (.ok [.json (.cardEntity { id := "card-acct" })],
         [getReq "/v2/accounts/cash/A1", getReq "/v2/accounts/card/A1"]) := by
  have h := (c10_get_account_404_fallback Accounts.fallbackOracle "A1" .json).2.1
    (Client.mkBrexApiError 404 { error := some "not_found", message := none, details := none })
    rfl rfl
  exact h.trans rfl

/-- C4: a malformed flag sequence (trailing flag with no value, unknown
dashed token, enumeration flag with an out-of-domain value) makes the
command dispatch fail with the scan error and an empty request trace — no
HTTP request is issued. -/
theorem c4_parse_errors_before_network :
    (∀ (oracle : Webhooks.WebhooksOracle) (args rest : List String)
        (fmt : OutputFormat) (e : String),
        parseOutputFlag args = (fmt, "list" :: rest) →
        Webhooks.parseListOptions rest = .error e →
        Webhooks.webhooksRun oracle args = (.error (.plain e), []))
    ∧ Webhooks.parseListOptions ["--cursor"] = .error "--cursor requires a value"
    ∧ Webhooks.parseListOptions ["--bogus"] = .error "Unknown option: --bogus"
    ∧ (∀ (oracle : Accounts.AccountsOracle) (order : Accounts.Completion)
        (args rest : List String) (fmt : OutputFormat) (e : String),
        parseOutputFlag args = (fmt, "list" :: rest) →
        Accounts.parseListOptions rest = .error e →
        Accounts.accountsRun oracle order args = (.error (.plain e), []))
    ∧ Accounts.parseListOptions ["--type", "checking"]
        = .error "--type must be one of: cash, card, all" := by
  refine ⟨?_, rfl, rfl, ?_, rfl⟩
  · intro oracle args rest fmt e hpof hparse
    simp [Webhooks.webhooksRun, hpof, hparse]
  · intro oracle order args rest fmt e hpof hparse
    simp [Accounts.accountsRun, hpof, hparse]

/-- C4 witness: `webhooks list --cursor` (trailing flag with no value) fails
before any request at a concrete input. -/
theorem c4_witness :
    Webhooks.webhooksRun Webhooks.stubOracle ["list", "--cursor"]
      = (.error (.plain "--cursor requires a value"), []) :=
  (c4_parse_errors_before_network).1 Webhooks.stubOracle ["list", "--cursor"]
    ["--cursor"] .table "--cursor requires a value" rfl rfl

/-- C5: in the combined two-kind account listing, with successful cash and
card fetches of m and n items, the merged table has exactly the m cash rows
followed by the n card rows (m+n in total), and the output is the same for
either completion order of the two concurrent fetches. -/
theorem c5_combined_listing_merge (oracle : Accounts.AccountsOracle)
    (order : Accounts.Completion) (opts : Accounts.ListOptions)
    (rc : Accounts.AccountsPage Accounts.CashAccount)
    (rd : Accounts.AccountsPage Accounts.CardAccount)
    (hall : opts.type = .all)
    (hc : oracle.cashList (Accounts.withCursor "/v2/accounts/cash" opts.cursor) = .ok rc)
    (hd : oracle.cardList (Accounts.withCursor "/v2/accounts/card" opts.cursor) = .ok rd) :
    ((Accounts.extractItems rc [.items, .cash_accounts, .accounts]).map
        (fun a => Accounts.toAccountRow (.cash a) .cash)
      ++ (Accounts.extractItems rd [.items, .card_accounts, .accounts]).map
        (fun a => Accounts.toAccountRow (.card a) .card)).length
      = (Accounts.extractItems rc [.items, .cash_accounts, .accounts]).length
        + (Accounts.extractItems rd [.items, .card_accounts, .accounts]).length
    ∧ Accounts.listAccounts oracle order opts .table
      = (.ok (Accounts.printAccountsTable
          ((Accounts.extractItems rc [.items, .cash_accounts, .accounts]).map
            (fun a => Accounts.toAccountRow (.cash a) .cash)
          ++ (Accounts.extractItems rd [.items, .card_accounts, .accounts]).map
            (fun a => Accounts.toAccountRow (.card a) .card))),
         [getReq (Accounts.withCursor "/v2/accounts/cash" opts.cursor),
          getReq (Accounts.withCursor "/v2/accounts/card" opts.cursor)])
    ∧ (((Accounts.extractItems rc [.items, .cash_accounts, .accounts]).map
          (fun a => Accounts.toAccountRow (.cash a) .cash)
        ++ (Accounts.extractItems rd [.items, .card_accounts, .accounts]).map
          (fun a => Accounts.toAccountRow (.card a) .card)) ≠ [] →
        Accounts.listAccounts oracle order opts .table
          = (.ok [.table
              ((Accounts.extractItems rc [.items, .cash_accounts, .accounts]).map
                (fun a => Accounts.toAccountRow (.cash a) .cash)
              ++ (Accounts.extractItems rd [.items, .card_accounts, .accounts]).map
                (fun a => Accounts.toAccountRow (.card a) .card)) Accounts.accountCols],
             [getReq (Accounts.withCursor "/v2/accounts/cash" opts.cursor),
              getReq (Accounts.withCursor "/v2/accounts/card" opts.cursor)])) := by
  have hmain : Accounts.listAccounts oracle order opts .table
      = (.ok (Accounts.printAccountsTable
          ((Accounts.extractItems rc [.items, .cash_accounts, .accounts]).map
            (fun a => Accounts.toAccountRow (.cash a) .cash)
          ++ (Accounts.extractItems rd [.items, .card_accounts, .accounts]).map
            (fun a => Accounts.toAccountRow (.card a) .card))),
         [getReq (Accounts.withCursor "/v2/accounts/cash" opts.cursor),
          getReq (Accounts.withCursor "/v2/accounts/card" opts.cursor)]) := by
    have hnotcash : ¬ opts.type = Accounts.AccountType.cash := by rw [hall]; simp
    have hnotcard : ¬ opts.type = Accounts.AccountType.card := by rw [hall]; simp
    simp only [Accounts.listAccounts, hnotcash, hnotcard, if_false, hc, hd]
    simp [Accounts.promiseAll2]
  refine ⟨by simp, hmain, ?_⟩
  intro hne
  rw [hmain]
  unfold Accounts.printAccountsTable
  rw [if_neg (by
    intro hlen
    exact hne (List.length_eq_zero.mp hlen))]

/-- C5 witness: three cash items and two card items merge into five rows,
cash first, identically for both completion orders. -/
theorem c5_witness :
    Accounts.listAccounts Accounts.mergeOracle .cashFirst { type := .all } .table
      = Accounts.listAccounts Accounts.mergeOracle .cardFirst { type := .all } .table
    ∧ Accounts.listAccounts Accounts.mergeOracle .cashFirst { type := .all } .table
      = (.ok [.table
          [{ id := "c1", name := "-", type := "cash", status := "-", accountNumber := "-",
             routingNumber := "-", available := "-", current := "-" },
           { id := "c2", name := "-", type := "cash", status := "-", accountNumber := "-",
             routingNumber := "-", available := "-", current := "-" },
           { id := "c3", name := "-", type := "cash", status := "-", accountNumber := "-",
             routingNumber := "-", available := "-", current := "-" },
           { id := "d1", name := "-", type := "card", status := "-", accountNumber := "-",
             routingNumber := "-", available := "-", current := "-" },
           { id := "d2", name := "-", type := "card", status := "-", accountNumber := "-",
             routingNumber := "-", available := "-", current := "-" }] Accounts.accountCols],
         [getReq "/v2/accounts/cash", getReq "/v2/accounts/card"]) := by
  have h1 := (c5_combined_listing_merge Accounts.mergeOracle .cashFirst { type := .all }
    { items := some [{ id := "c1" }, { id := "c2" }, { id := "c3" }] }
    { items := some [{ id := "d1" }, { id := "d2" }] } rfl rfl rfl).2.2 (by decide)
  have h2 := (c5_combined_listing_merge Accounts.mergeOracle .cardFirst { type := .all }
    { items := some [{ id := "c1" }, { id := "c2" }, { id := "c3" }] }
    { items := some [{ id := "d1" }, { id := "d2" }] } rfl rfl rfl).2.2 (by decide)
  exact ⟨h1.trans (h2.trans rfl).symm, h1.trans rfl⟩

end Brex
namespace Brex

/-- C9: a cursor passed back via the cursor flag appears in the next request
as the cursor query parameter with exactly its original value — both through
`withCursor` (URI-component encoding) and through the events listing's
`URLSearchParams` query (form encoding); and the events listing requests
exactly the built path.  Cursors are quantified over all ASCII strings,
including characters the encodings must escape. -/
theorem c9_cursor_roundtrip :
    (∀ (path cursor : String), '?' ∉ path.data → cursor ≠ "" →
      (∀ c ∈ cursor.data, c.toNat < 128) →
      queryParamValueL false (Statements.withCursor path (some cursor)).data "cursor".data
        = some cursor.data)
    ∧ (∀ (o : Events.ListOptions) (cursor : String), o.cursor = some cursor → cursor ≠ "" →
      (∀ c ∈ cursor.data, c.toNat < 128) →
      queryParamValueL true (Events.listEventsPath o).data "cursor".data = some cursor.data)
    ∧ (∀ (fetch : String → FetchR Events.ListEventsResponse) (opts : Events.ListOptions)
        (format : OutputFormat),
        (Events.listEvents fetch opts format).2 = [getReq (Events.listEventsPath opts)]) := by
  refine ⟨queryParam_withCursor_statements, queryParam_listEventsPath, ?_⟩
  intro fetch opts format
  unfold Events.listEvents
  simp only []
  cases h : fetch (Events.listEventsPath opts) with
  | error e => rfl
  | ok r =>
    by_cases hj : format = .json
    · simp [hj]
    · simp only [hj, if_false]
      by_cases hl : ((nc r.items r.events).getD []).length = 0
      · simp [hl]
      · simp only [hl, if_false]

/-- C9 witness: the cursor `abc123` read back unchanged from the statements
path at a concrete input. -/
theorem c9_witness :
    queryParamValueL false
      (Statements.withCursor "/v2/accounts/card/primary/statements" (some "abc123")).data
      "cursor".data = some "abc123".data :=
  (c9_cursor_roundtrip).1 "/v2/accounts/card/primary/statements" "abc123"
    (by decide) (by decide) (by decide)

end Brex
namespace Brex

/-- C1 counterexample: the webhooks listing prints `No webhooks configured.`
rather than `No webhooks found.`, and the single-kind accounts listing with
zero items and a next cursor prints the cursor hint after the empty-list
message, so the output is not that line alone. -/
theorem c1_counterexample :
    Webhooks.listWebhooks Webhooks.emptyListOracle {} .table
      = (.ok [.line "No webhooks configured."], [getReq "/v1/webhooks"])
    ∧ ("No webhooks configured." : String) ≠ "No webhooks found."
    ∧ Accounts.listAccounts Accounts.emptyCashWithCursorOracle .cashFirst
        { type := .cash } .table
      = (.ok [.line "No accounts found.", .line "\nNext cursor: ZZZ"],
         [getReq "/v2/accounts/cash"]) :=
  ⟨rfl, by decide, rfl⟩

/-- C1 amended: every list command with an empty fetched row sequence in
table mode prints exactly one line — `No <items> found.` for all commands
except the webhooks listing, which prints `No webhooks configured.`; the
accounts listing additionally prints a next-cursor hint after the line when
a single-kind response carries a truthy next cursor (the combined listing
prints exactly the line). -/
theorem c1_empty_list_message :
    (∀ (fetch : String → FetchR Events.ListEventsResponse) (opts : Events.ListOptions) r,
      fetch (Events.listEventsPath opts) = .ok r →
      (nc r.items r.events).getD [] = [] →
      Events.listEvents fetch opts .table
        = (.ok [.line "No events found."], [getReq (Events.listEventsPath opts)]))
    ∧ (∀ (oracle : Webhooks.WebhooksOracle) (opts : Webhooks.ListOptions) r,
      oracle.list (Webhooks.listWebhooksPath opts) = .ok r →
      (nc r.items r.webhooks).getD [] = [] →
      Webhooks.listWebhooks oracle opts .table
        = (.ok [.line "No webhooks configured."], [getReq (Webhooks.listWebhooksPath opts)]))
    ∧ (∀ (fetch : String → FetchR Cards.ListCardsResponse) (opts : Cards.ListOptions) r,
      fetch (Cards.listCardsPath opts) = .ok r →
      (nc r.items r.cards).getD [] = [] →
      Cards.listCards fetch opts .table
        = (.ok [.line "No cards found."], [getReq (Cards.listCardsPath opts)]))
    ∧ (∀ (fetch : String → FetchR Users.ListUsersResponse) (opts : Users.ListOptions) r,
      fetch (Users.listUsersPath opts) = .ok r →
      (nc r.items r.users).getD [] = [] →
      Users.listUsers fetch opts .table
        = (.ok [.line "No users found."], [getReq (Users.listUsersPath opts)]))
    ∧ (∀ (fetch : String → FetchR Statements.ListStatementsResponse)
        (opts : Statements.ListOptions) r,
      fetch (Statements.listStatementsPath opts) = .ok r →
      (nc r.items r.statements).getD [] = [] →
      Statements.listStatements fetch opts .table
        = (.ok [.line "No statements found."], [getReq (Statements.listStatementsPath opts)]))
    ∧ (∀ (fetch : String → FetchR Transactions.ListTransactionsResponse)
        (accountId : String) (opts : Transactions.ListOptions) r,
      fetch (Transactions.withQuery
          (match opts.type with
           | .cash => s!"/v2/transactions/cash/{accountId}"
           | .card => s!"/v2/transactions/card/{accountId}") opts) = .ok r →
      (nc r.items r.transactions).getD [] = [] →
      Transactions.listTransactions fetch accountId opts .table
        = (.ok [.line "No transactions found."],
           [getReq (Transactions.withQuery
              (match opts.type with
               | .cash => s!"/v2/transactions/cash/{accountId}"
               | .card => s!"/v2/transactions/card/{accountId}") opts)]))
    ∧ (∀ (fetch : String → FetchR TransactionsAlt.ListTransactionsResponse)
        (accountId : String) (opts : TransactionsAlt.ListOptions) r,
      fetch (TransactionsAlt.withQuery
          (match opts.type with
           | .cash => s!"/v2/transactions/cash/{accountId}"
           | .card => "/v2/transactions/card/primary") opts) = .ok r →
      r.items.getD [] = [] →
      TransactionsAlt.listTransactions fetch accountId opts .table
        = (.ok [.line "No transactions found."],
           [getReq (TransactionsAlt.withQuery
              (match opts.type with
               | .cash => s!"/v2/transactions/cash/{accountId}"
               | .card => "/v2/transactions/card/primary") opts)]))
    ∧ (∀ (fetch : String → FetchR Vendors.ListVendorsResponse) (opts : Vendors.ListOptions) r,
      fetch (Vendors.listVendorsPath opts) = .ok r →
      r.items.getD [] = [] →
      Vendors.listVendors fetch opts .table
        = (.ok [.line "No vendors found."], [getReq (Vendors.listVendorsPath opts)]))
    ∧ (∀ (fetch : String → FetchR TransferA.ListTransfersResponse)
        (opts : TransferA.ListTransferOptions) r,
      fetch (TransferA.listTransfersPath opts) = .ok r →
      r.items.getD [] = [] →
      TransferA.listTransfers fetch opts .table
        = (.ok [.line "No transfers found."], [getReq (TransferA.listTransfersPath opts)]))
    ∧ (∀ (fetch : String → FetchR TransferB.ListTransfersResponse)
        (opts : TransferB.ListTransferOptions) r,
      fetch (TransferB.listTransfersPath opts) = .ok r →
      (nc r.items r.transfers).getD [] = [] →
      TransferB.listTransfers fetch opts .table
        = (.ok [.line "No transfers found."], [getReq (TransferB.listTransfersPath opts)]))
    ∧ (∀ (oracle : Accounts.AccountsOracle) (order : Accounts.Completion)
        (opts : Accounts.ListOptions) r,
      opts.type = .cash →
      oracle.cashList (Accounts.withCursor "/v2/accounts/cash" opts.cursor) = .ok r →
      Accounts.extractItems r [.items, .cash_accounts, .accounts] = [] →
      truthyStr r.next_cursor = none →
      Accounts.listAccounts oracle order opts .table
        = (.ok [.line "No accounts found."],
           [getReq (Accounts.withCursor "/v2/accounts/cash" opts.cursor)]))
    ∧ (∀ (oracle : Accounts.AccountsOracle) (order : Accounts.Completion)
        (opts : Accounts.ListOptions) rc rd,
      opts.type = .all →
      oracle.cashList (Accounts.withCursor "/v2/accounts/cash" opts.cursor) = .ok rc →
      oracle.cardList (Accounts.withCursor "/v2/accounts/card" opts.cursor) = .ok rd →
      Accounts.extractItems rc [.items, .cash_accounts, .accounts] = [] →
      Accounts.extractItems rd [.items, .card_accounts, .accounts] = [] →
      Accounts.listAccounts oracle order opts .table
        = (.ok [.line "No accounts found."],
           [getReq (Accounts.withCursor "/v2/accounts/cash" opts.cursor),
            getReq (Accounts.withCursor "/v2/accounts/card" opts.cursor)])) := by
  refine ⟨?_, ?_, ?_, ?_, ?_, ?_, ?_, ?_, ?_, ?_, ?_, ?_⟩
  · intro fetch opts r hf he
    unfold Events.listEvents
    simp only []
    rw [hf]
    simp [he]
  · intro oracle opts r hf he
    unfold Webhooks.listWebhooks
    simp only []
    rw [hf]
    simp [he]
  · intro fetch opts r hf he
    unfold Cards.listCards
    simp only []
    rw [hf]
    simp [he]
  · intro fetch opts r hf he
    unfold Users.listUsers
    simp only []
    rw [hf]
    simp [he]
  · intro fetch opts r hf he
    unfold Statements.listStatements
    simp only []
    rw [hf]
    simp [he]
  · intro fetch accountId opts r hf he
    unfold Transactions.listTransactions
    simp only []
    rw [hf]
    simp [he]
  · intro fetch accountId opts r hf he
    unfold TransactionsAlt.listTransactions
    simp only []
    rw [hf]
    simp [he]
  · intro fetch opts r hf he
    unfold Vendors.listVendors
    simp only []
    rw [hf]
    simp [he]
  · intro fetch opts r hf he
    unfold TransferA.listTransfers
    simp only []
    rw [hf]
    simp [he]
  · intro fetch opts r hf he
    unfold TransferB.listTransfers
    simp only []
    rw [hf]
    simp [he]
  · intro oracle order opts r htype hf he hcur
    unfold Accounts.listAccounts
    simp only []
    rw [if_pos htype, hf]
    simp [he, hcur, Accounts.printAccountsTable]
  · intro oracle order opts rc rd htype hc hd hec hed
    have hnotcash : ¬ opts.type = Accounts.AccountType.cash := by rw [htype]; simp
    have hnotcard : ¬ opts.type = Accounts.AccountType.card := by rw [htype]; simp
    unfold Accounts.listAccounts
    simp only []
    rw [if_neg hnotcash, if_neg hnotcard, hc, hd]
    simp [Accounts.promiseAll2, hec, hed, Accounts.printAccountsTable]

/-- C1 witness: an empty events listing in table mode at a concrete input
prints exactly the empty-list line. -/
theorem c1_witness :
    Events.listEvents
      (fun _ => .ok { items := some [], events := none, next_cursor := none }) {} .table
      = (.ok [.line "No events found."], [getReq "/v1/events"]) := by
  have h := (c1_empty_list_message).1
    (fun _ => .ok { items := some [], events := none, next_cursor := none }) {}
    { items := some [], events := none, next_cursor := none } rfl rfl
  exact h.trans (by rw [show Events.listEventsPath {} = "/v1/events" from rfl])

end Brex
namespace Brex

/-- C2: every successful list call in JSON mode prints exactly the object
holding the fetched items, unchanged and in order, with the page cursor
(`none` rendering as JSON null); the combined all-accounts listing prints
the two envelopes, each holding exactly its fetched items and cursor. -/
theorem c2_json_envelope :
    (∀ (fetch : String → FetchR Events.ListEventsResponse) (opts : Events.ListOptions) r,
      fetch (Events.listEventsPath opts) = .ok r →
      Events.listEvents fetch opts .json
        = (.ok [.json ⟨(nc r.items r.events).getD [], r.next_cursor⟩],
           [getReq (Events.listEventsPath opts)]))
    ∧ (∀ (oracle : Webhooks.WebhooksOracle) (opts : Webhooks.ListOptions) r,
      oracle.list (Webhooks.listWebhooksPath opts) = .ok r →
      Webhooks.listWebhooks oracle opts .json
        = (.ok [.json (.env ⟨(nc r.items r.webhooks).getD [], r.next_cursor⟩)],
           [getReq (Webhooks.listWebhooksPath opts)]))
    ∧ (∀ (fetch : String → FetchR Cards.ListCardsResponse) (opts : Cards.ListOptions) r,
      fetch (Cards.listCardsPath opts) = .ok r →
      Cards.listCards fetch opts .json
        = (.ok [.json ⟨(nc r.items r.cards).getD [], r.next_cursor⟩],
           [getReq (Cards.listCardsPath opts)]))
    ∧ (∀ (fetch : String → FetchR Users.ListUsersResponse) (opts : Users.ListOptions) r,
      fetch (Users.listUsersPath opts) = .ok r →
      Users.listUsers fetch opts .json
        = (.ok [.json ⟨(nc r.items r.users).getD [], r.next_cursor⟩],
           [getReq (Users.listUsersPath opts)]))
    ∧ (∀ (fetch : String → FetchR Statements.ListStatementsResponse)
        (opts : Statements.ListOptions) r,
      fetch (Statements.listStatementsPath opts) = .ok r →
      Statements.listStatements fetch opts .json
        = (.ok [.json ⟨(nc r.items r.statements).getD [], r.next_cursor⟩],
           [getReq (Statements.listStatementsPath opts)]))
    ∧ (∀ (fetch : String → FetchR Transactions.ListTransactionsResponse)
        (accountId : String) (opts : Transactions.ListOptions) r,
      fetch (Transactions.withQuery
          (match opts.type with
           | .cash => s!"/v2/transactions/cash/{accountId}"
           | .card => s!"/v2/transactions/card/{accountId}") opts) = .ok r →
      Transactions.listTransactions fetch accountId opts .json
        = (.ok [.json ⟨(nc r.items r.transactions).getD [], r.next_cursor⟩],
           [getReq (Transactions.withQuery
              (match opts.type with
               | .cash => s!"/v2/transactions/cash/{accountId}"
               | .card => s!"/v2/transactions/card/{accountId}") opts)]))
    ∧ (∀ (fetch : String → FetchR TransactionsAlt.ListTransactionsResponse)
        (accountId : String) (opts : TransactionsAlt.ListOptions) r,
      fetch (TransactionsAlt.withQuery
          (match opts.type with
           | .cash => s!"/v2/transactions/cash/{accountId}"
           | .card => "/v2/transactions/card/primary") opts) = .ok r →
      TransactionsAlt.listTransactions fetch accountId opts .json
        = (.ok [.json ⟨r.items.getD [], r.next_cursor⟩],
           [getReq (TransactionsAlt.withQuery
              (match opts.type with
               | .cash => s!"/v2/transactions/cash/{accountId}"
               | .card => "/v2/transactions/card/primary") opts)]))
    ∧ (∀ (fetch : String → FetchR Vendors.ListVendorsResponse) (opts : Vendors.ListOptions) r,
      fetch (Vendors.listVendorsPath opts) = .ok r →
      Vendors.listVendors fetch opts .json
        = (.ok [.json ⟨r.items.getD [], r.next_cursor⟩],
           [getReq (Vendors.listVendorsPath opts)]))
    ∧ (∀ (fetch : String → FetchR TransferA.ListTransfersResponse)
        (opts : TransferA.ListTransferOptions) r,
      fetch (TransferA.listTransfersPath opts) = .ok r →
      TransferA.listTransfers fetch opts .json
        = (.ok [.json ⟨r.items.getD [], r.next_cursor⟩],
           [getReq (TransferA.listTransfersPath opts)]))
    ∧ (∀ (fetch : String → FetchR TransferB.ListTransfersResponse)
        (opts : TransferB.ListTransferOptions) r,
      fetch (TransferB.listTransfersPath opts) = .ok r →
      TransferB.listTransfers fetch opts .json
        = (.ok [.json ⟨(nc r.items r.transfers).getD [], r.next_cursor⟩],
           [getReq (TransferB.listTransfersPath opts)]))
    ∧ (∀ (oracle : Accounts.AccountsOracle) (order : Accounts.Completion)
        (opts : Accounts.ListOptions) r,
      opts.type = .cash →
      oracle.cashList (Accounts.withCursor "/v2/accounts/cash" opts.cursor) = .ok r →
      Accounts.listAccounts oracle order opts .json
        = (.ok [.json (.cashEnv ⟨Accounts.extractItems r [.items, .cash_accounts, .accounts],
                                 r.next_cursor⟩)],
           [getReq (Accounts.withCursor "/v2/accounts/cash" opts.cursor)]))
    ∧ (∀ (oracle : Accounts.AccountsOracle) (order : Accounts.Completion)
        (opts : Accounts.ListOptions) rc rd,
      opts.type = .all →
      oracle.cashList (Accounts.withCursor "/v2/accounts/cash" opts.cursor) = .ok rc →
      oracle.cardList (Accounts.withCursor "/v2/accounts/card" opts.cursor) = .ok rd →
      Accounts.listAccounts oracle order opts .json
        = (.ok [.json (.combined
            ⟨Accounts.extractItems rc [.items, .cash_accounts, .accounts], rc.next_cursor⟩
            ⟨Accounts.extractItems rd [.items, .card_accounts, .accounts], rd.next_cursor⟩)],
           [getReq (Accounts.withCursor "/v2/accounts/cash" opts.cursor),
            getReq (Accounts.withCursor "/v2/accounts/card" opts.cursor)])) := by
  refine ⟨?_, ?_, ?_, ?_, ?_, ?_, ?_, ?_, ?_, ?_, ?_, ?_⟩
  · intro fetch opts r hf
    unfold Events.listEvents
    simp only []
    rw [hf]
    simp
  · intro oracle opts r hf
    unfold Webhooks.listWebhooks
    simp only []
    rw [hf]
    simp
  · intro fetch opts r hf
    unfold Cards.listCards
    simp only []
    rw [hf]
    simp
  · intro fetch opts r hf
    unfold Users.listUsers
    simp only []
    rw [hf]
    simp
  · intro fetch opts r hf
    unfold Statements.listStatements
    simp only []
    rw [hf]
    simp
  · intro fetch accountId opts r hf
    unfold Transactions.listTransactions
    simp only []
    rw [hf]
    simp
  · intro fetch accountId opts r hf
    unfold TransactionsAlt.listTransactions
    simp only []
    rw [hf]
    simp
  · intro fetch opts r hf
    unfold Vendors.listVendors
    simp only []
    rw [hf]
    simp
  · intro fetch opts r hf
    unfold TransferA.listTransfers
    simp only []
    rw [hf]
    simp
  · intro fetch opts r hf
    unfold TransferB.listTransfers
    simp only []
    rw [hf]
    simp
  · intro oracle order opts r htype hf
    unfold Accounts.listAccounts
    simp only []
    rw [if_pos htype, hf]
    simp
  · intro oracle order opts rc rd htype hc hd
    have hnotcash : ¬ opts.type = Accounts.AccountType.cash := by rw [htype]; simp
    have hnotcard : ¬ opts.type = Accounts.AccountType.card := by rw [htype]; simp
    unfold Accounts.listAccounts
    simp only []
    rw [if_neg hnotcash, if_neg hnotcard, hc, hd]
    simp [Accounts.promiseAll2]

/-- C2 witness: an events listing in JSON mode at a concrete input prints
exactly the envelope with the fetched items and the cursor. -/
theorem c2_witness :
    Events.listEvents (fun _ => .ok Events.sampleResponse) {} .json
      = (.ok [.json ⟨[Events.sampleEvent], some "next-1"⟩], [getReq "/v1/events"]) := by
  have h := (c2_json_envelope).1 (fun _ => .ok Events.sampleResponse) {}
    Events.sampleResponse rfl
  exact h.trans rfl

end Brex
